import Mathlib

/-!
# Cross-cluster reflection: endpoints, services and the pod provider

A shallow embedding of

* `internal/advertisement-operator/reflector.go`
  (`watchServices`, `watchEP`, `generateEP`, `generateSlice`), and
* `pkg/virtualKubelet/provider/pods.go` (`LiqoProvider.CreatePod`,
  `DeletePod`, `GetPod`, `GetPodStatus`).

Go pointers that may be nil are `Option`s, Go slices are `List`s, and a Go
run-time panic is the error side of `Except RuntimePanic`.
-/

namespace Liqo

/-! ## Kubernetes API objects (the fields the code reads or writes) -/

/-- Go run-time panics that the embedded functions can raise. -/
inductive RuntimePanic where
  | indexOutOfRange
  | nilDereference
deriving DecidableEq, Repr

deriving instance DecidableEq for Except

/-- Go `strings.HasPrefix(s, p)`. -/
def HasPrefix (s p : String) : Bool :=
  p.toList.isPrefixOf s.toList

/-- Go `map[string]string`; `none` is the nil map. -/
abbrev StringMap := Option (List (String × String))

/-- The `metav1.TypeMeta` of an object. -/
structure TypeMeta where
  Kind : String := ""
  APIVersion : String := ""
deriving DecidableEq, Repr

/-- The `metav1.OwnerReference` of an object (the fields that identify the owner). -/
structure OwnerReference where
  APIVersion : String := ""
  Kind : String := ""
  Name : String := ""
  UID : String := ""
deriving DecidableEq, Repr

/-- The `metav1.ObjectMeta` of an object. -/
structure ObjectMeta where
  Name : String := ""
  Namespace : String := ""
  Labels : StringMap := none
  Annotations : StringMap := none
  OwnerReferences : Option (List OwnerReference) := none
  Finalizers : List String := []
deriving DecidableEq, Repr

/-- The `corev1.ObjectReference` an endpoint address may point to. -/
structure ObjectReference where
  Kind : String := ""
  Namespace : String := ""
  Name : String := ""
deriving DecidableEq, Repr

/-- The `corev1.EndpointAddress`: `NodeName` and `TargetRef` are pointers. -/
structure EndpointAddress where
  IP : String := ""
  Hostname : String := ""
  NodeName : Option String := none
  TargetRef : Option ObjectReference := none
deriving DecidableEq, Repr

/-- The `corev1.EndpointPort`. -/
structure EndpointPort where
  Name : String := ""
  Port : Int := 0
  Protocol : String := ""
deriving DecidableEq, Repr

/-- The `corev1.EndpointSubset`. -/
structure EndpointSubset where
  Addresses : List EndpointAddress := []
  NotReadyAddresses : List EndpointAddress := []
  Ports : List EndpointPort := []
deriving DecidableEq, Repr

/-- The `corev1.Endpoints`. -/
structure Endpoints where
  TypeMeta : TypeMeta := {}
  ObjectMeta : ObjectMeta := {}
  Subsets : List EndpointSubset := []
deriving DecidableEq, Repr

/-! ## `generateEP` (reflector.go, lines 126-168) -/

/-- The address built at lines 147-152: IP and hostname kept, node name and
target reference cleared. -/
def newAddress (addr : EndpointAddress) : EndpointAddress :=
  { IP := addr.IP, Hostname := addr.Hostname, NodeName := none, TargetRef := none }

/-- Line 153: `endpointsRemote.Subsets[i].Addresses = append(..., a)`; indexing
past the end of `Subsets` panics. -/
def appendAddress (subsets : List EndpointSubset) (i : Nat) (a : EndpointAddress) :
    Except RuntimePanic (List EndpointSubset) :=
  match subsets[i]? with
  | none => .error .indexOutOfRange
  | some s => .ok (subsets.set i { s with Addresses := s.Addresses ++ [a] })

/-- Line 159: `endpointsRemote.Subsets[i].Ports = append(..., port)`. -/
def appendPort (subsets : List EndpointSubset) (i : Nat) (p : EndpointPort) :
    Except RuntimePanic (List EndpointSubset) :=
  match subsets[i]? with
  | none => .error .indexOutOfRange
  | some s => .ok (subsets.set i { s with Ports := s.Ports ++ [p] })

/-- Lines 142-156: the loop over the addresses of local subset `i`; the state is
the remote subsets and `flag`. -/
def addrLoop (i : Nat) :
    List EndpointAddress → List EndpointSubset × Bool →
      Except RuntimePanic (List EndpointSubset × Bool)
  | [], st => .ok st
  | addr :: rest, (subsets, flag) =>
    match addr.NodeName with
    | none => addrLoop i rest (subsets, flag)
    | some nodeName =>
      if !HasPrefix nodeName "vk" then
        match appendAddress subsets i (newAddress addr) with
        | .error e => .error e
        | .ok subsets' => addrLoop i rest (subsets', true)
      else addrLoop i rest (subsets, flag)

/-- Lines 158-160: the loop over the ports of local subset `i`. -/
def portLoop (i : Nat) :
    List EndpointPort → List EndpointSubset → Except RuntimePanic (List EndpointSubset)
  | [], subsets => .ok subsets
  | port :: rest, subsets =>
    match appendPort subsets i port with
    | .error e => .error e
    | .ok subsets' => portLoop i rest subsets'

/-- Lines 141-163: the loop over the local subsets, `i` being the index of the
first subset of the list. -/
def subsetLoop (new : Bool) :
    Nat → List EndpointSubset → List EndpointSubset × Bool →
      Except RuntimePanic (List EndpointSubset × Bool)
  | _, [], st => .ok st
  | i, eps :: rest, st =>
    match addrLoop i eps.Addresses st with
    | .error e => .error e
    | .ok (subsets, flag) =>
      if new = true then
        match portLoop i eps.Ports subsets with
        | .error e => .error e
        | .ok subsets' => subsetLoop new (i + 1) rest (subsets', flag)
      else subsetLoop new (i + 1) rest (subsets, flag)

/-- The function `generateEP`. The result `.ok none` is the Go `nil`. -/
def generateEP (localEndpoints : Endpoints) (endpointsRemote : Option Endpoints) :
    Except RuntimePanic (Option Endpoints) :=
  let new : Bool := endpointsRemote.isNone
  let remote : Endpoints :=
    match endpointsRemote with
    | some r => r
    | none =>
      { TypeMeta := {}
        ObjectMeta :=
          { Name := localEndpoints.ObjectMeta.Name
            Namespace := localEndpoints.ObjectMeta.Namespace }
        Subsets := [] }
  match subsetLoop new 0 localEndpoints.Subsets (remote.Subsets, false) with
  | .error e => .error e
  | .ok (subsets, flag) =>
    if flag != true then .ok none
    else .ok (some { remote with Subsets := subsets })

/-! ## The address filter, stated on lists -/

/-- The test of lines 143-146: the node name is present and does not start
with `vk`. -/
def qualifies (a : EndpointAddress) : Bool :=
  match a.NodeName with
  | none => false
  | some nodeName => !HasPrefix nodeName "vk"

/-- The addresses that one local subset contributes, in the local order. -/
def copied (addrs : List EndpointAddress) : List EndpointAddress :=
  (addrs.filter qualifies).map newAddress

/-- A local subset contributes at least one address. -/
def contributes (eps : EndpointSubset) : Bool :=
  eps.Addresses.any qualifies

/-- The remote subsets after an update: subset `i` of the remote gets the
addresses copied from subset `i` of the local object. -/
def mergeSubsets : List EndpointSubset → List EndpointSubset → List EndpointSubset
  | [], rs => rs
  | _ :: _, [] => []
  | l :: ls, r :: rs =>
    { r with Addresses := r.Addresses ++ copied l.Addresses } :: mergeSubsets ls rs

/-! ## `generateSlice` (reflector.go, lines 172-221) -/

namespace v1beta1

/-- The `v1beta1.EndpointConditions`: `Ready` is a pointer to a boolean. -/
structure EndpointConditions where
  Ready : Option Bool := none
deriving DecidableEq, Repr

/-- The `v1beta1.Endpoint` of an endpoint slice. -/
structure Endpoint where
  Addresses : List String := []
  Conditions : EndpointConditions := {}
  Hostname : Option String := none
  TargetRef : Option ObjectReference := none
  Topology : StringMap := none
deriving DecidableEq, Repr

/-- The `v1beta1.EndpointPort` of an endpoint slice: every field is a pointer. -/
structure EndpointPort where
  Name : Option String := none
  Protocol : Option String := none
  Port : Option Int := none
  AppProtocol : Option String := none
deriving DecidableEq, Repr

/-- The `v1beta1.EndpointSlice`. -/
structure EndpointSlice where
  TypeMeta : TypeMeta := {}
  ObjectMeta : ObjectMeta := {}
  AddressType : String := ""
  Endpoints : List Endpoint := []
  Ports : List EndpointPort := []
deriving DecidableEq, Repr

/-- The constant `v1beta1.AddressTypeIPv4` of the Kubernetes discovery API. -/
def AddressTypeIPv4 : String := "IPv4"

end v1beta1

/-- The `corev1.ServicePort`. -/
structure ServicePort where
  Name : String := ""
  Protocol : String := ""
  Port : Int := 0
  TargetPort : String := ""
  NodePort : Int := 0
deriving DecidableEq, Repr

/-- The `corev1.ServiceSpec`; `Type_` is the Go field `Type`. -/
structure ServiceSpec where
  Ports : List ServicePort := []
  Selector : StringMap := none
  ClusterIP : String := ""
  Type_ : String := ""
  ExternalIPs : List String := []
  SessionAffinity : String := ""
  LoadBalancerIP : String := ""
  LoadBalancerSourceRanges : List String := []
  ExternalName : String := ""
  ExternalTrafficPolicy : String := ""
  HealthCheckNodePort : Int := 0
  PublishNotReadyAddresses : Bool := false
deriving DecidableEq, Repr

/-- The `corev1.Service` (its status is never read or written by the code). -/
structure Service where
  TypeMeta : TypeMeta := {}
  ObjectMeta : ObjectMeta := {}
  Spec : ServiceSpec := {}
deriving DecidableEq, Repr

/-- The endpoint built at lines 192-202 for one address. -/
def newEndpoint (addr : EndpointAddress) : v1beta1.Endpoint :=
  { Addresses := [addr.IP]
    Conditions := { Ready := some true }
    TargetRef := none
    Topology := none }

/-- Lines 189-206: the loop over the addresses of one subset; the state is
`epSlice.Endpoints` and `flag`. Line 191 dereferences `addr.NodeName` without
a nil check. -/
def sliceAddrLoop :
    List EndpointAddress → List v1beta1.Endpoint × Bool →
      Except RuntimePanic (List v1beta1.Endpoint × Bool)
  | [], st => .ok st
  | addr :: rest, (endpoints, flag) =>
    match addr.NodeName with
    | none => .error .nilDereference
    | some nodeName =>
      if !HasPrefix nodeName "vk" then
        sliceAddrLoop rest (endpoints ++ [newEndpoint addr], true)
      else sliceAddrLoop rest (endpoints, flag)

/-- Lines 210-217: the ports appended for one subset. The three pointers
`&port.Name`, `&port.Protocol` and `&port.Port` address the loop variable,
which is a single variable for the whole `for` statement (the Go semantics
before 1.22, the toolchain of this code base): once the loop is over, each
port it appended reads the last port of the subset. -/
def slicePorts (ports : List EndpointPort) : List v1beta1.EndpointPort :=
  match ports.getLast? with
  | none => []
  | some last =>
    ports.map fun _ =>
      { Name := some last.Name, Protocol := some last.Protocol, Port := some last.Port }

/-- Lines 187-218: the loop over the subsets. -/
def sliceSubsetLoop :
    List EndpointSubset → v1beta1.EndpointSlice → Except RuntimePanic (Option v1beta1.EndpointSlice)
  | [], epSlice => .ok (some epSlice)
  | ep :: rest, epSlice =>
    match sliceAddrLoop ep.Addresses (epSlice.Endpoints, false) with
    | .error e => .error e
    | .ok (endpoints, flag) =>
      if flag != true then .ok none
      else
        sliceSubsetLoop rest
          { epSlice with Endpoints := endpoints, Ports := epSlice.Ports ++ slicePorts ep.Ports }

/-- The slice of lines 173-185, before the loop. -/
def emptySlice (svc : Service) : v1beta1.EndpointSlice :=
  { ObjectMeta :=
      { Name := svc.ObjectMeta.Name
        Namespace := svc.ObjectMeta.Namespace
        Labels := some
          [("endpointslice.kubernetes.io/managed-by", "vk"),
           ("kubernetes.io/service-name", svc.ObjectMeta.Name)] }
    AddressType := v1beta1.AddressTypeIPv4
    Endpoints := []
    Ports := [] }

/-- The function `generateSlice`, called on two non-nil pointers. The result
`.ok none` is the Go `nil`. -/
def generateSlice (endpoints : Endpoints) (svc : Service) :
    Except RuntimePanic (Option v1beta1.EndpointSlice) :=
  sliceSubsetLoop endpoints.Subsets (emptySlice svc)

/-- The endpoints of a slice, stated on lists: one per qualifying address, in
order across the subsets. -/
def sliceEndpoints (subsets : List EndpointSubset) : List v1beta1.Endpoint :=
  subsets.flatMap fun s => (s.Addresses.filter qualifies).map newEndpoint

/-- Every address of the object has a node name. -/
def allNodeNames (endpoints : Endpoints) : Prop :=
  ∀ s ∈ endpoints.Subsets, ∀ a ∈ s.Addresses, a.NodeName ≠ none

/-! ## `watchServices` (reflector.go, lines 38-77) -/

/-- The `watch.EventType` of a watch event. -/
inductive EventType where
  | Added
  | Modified
  | Deleted
  | Bookmark
  | Error
deriving DecidableEq, Repr

/-- A watch event on services; `Type_` is the Go field `Type`, and `Object` is
`none` when the assertion `event.Object.(*corev1.Service)` of line 44 fails. -/
structure ServiceEvent where
  Type_ : EventType
  Object : Option Service
deriving DecidableEq, Repr

/-- The calls of the typed client `remoteClient.CoreV1().Services(namespace)`. -/
inductive ServiceCall where
  | Get (ns name : String)
  | Create (ns : String) (svc : Service)
  | Update (ns : String) (svc : Service)
  | Delete (ns name : String)
deriving DecidableEq, Repr

/-- Lines 54-66: the service sent to the foreign cluster. -/
def translateService (svc : Service) : Service :=
  { ObjectMeta :=
      { Name := svc.ObjectMeta.Name
        Namespace := svc.ObjectMeta.Namespace
        Labels := svc.ObjectMeta.Labels
        Annotations := none }
    Spec :=
      { Ports := svc.Spec.Ports
        Selector := svc.Spec.Selector
        Type_ := svc.Spec.Type_ } }

/-- The services of the watched namespace on the foreign cluster: `Get` of
line 49 succeeds exactly when a service of that name is stored. -/
def remoteGet (remote : List Service) (name : String) : Option Service :=
  remote.find? fun r => r.ObjectMeta.Name == name

/-- Lines 43-76, one iteration of the loop: the calls issued on the foreign
cluster and its services afterwards (a `Create` of an absent name stores the
service). The event type is not read. -/
def watchServicesStep (ns : String) (remote : List Service) (event : ServiceEvent) :
    List ServiceCall × List Service :=
  match event.Object with
  | none => ([], remote)
  | some svc =>
    match remoteGet remote svc.ObjectMeta.Name with
    | some _ => ([.Get ns svc.ObjectMeta.Name], remote)
    | none =>
      let svcRemote := translateService svc
      ([.Get ns svc.ObjectMeta.Name, .Create ns svcRemote], remote ++ [svcRemote])

/-- The loop of `watchServices` over the events of the channel. -/
def watchServices (ns : String) :
    List Service → List ServiceEvent → List ServiceCall × List Service
  | remote, [] => ([], remote)
  | remote, event :: events =>
    let (calls, remote') := watchServicesStep ns remote event
    let (calls', remote'') := watchServices ns remote' events
    (calls ++ calls', remote'')

/-! ## `LiqoProvider.CreatePod` (pods.go, lines 27-84) -/

/-- The `corev1.Container` (name, image and environment). -/
structure Container where
  Name : String := ""
  Image : String := ""
  Env : List (String × String) := []
deriving DecidableEq, Repr

/-- The `corev1.PodSpec`. -/
structure PodSpec where
  NodeName : String := ""
  Containers : List Container := []
deriving DecidableEq, Repr

/-- The `corev1.PodStatus`. -/
structure PodStatus where
  Phase : String := ""
  PodIP : String := ""
deriving DecidableEq, Repr

/-- The `corev1.Pod`. -/
structure Pod where
  TypeMeta : TypeMeta := {}
  ObjectMeta : ObjectMeta := {}
  Spec : PodSpec := {}
  Status : PodStatus := {}
deriving DecidableEq, Repr

/-- The `appsv1.ReplicaSetSpec`: the replica count is a pointer, the template is
the metadata and the spec of a pod. -/
structure ReplicaSetSpec where
  Replicas : Option Int := none
  Selector : StringMap := none
  TemplateMeta : ObjectMeta := {}
  TemplateSpec : PodSpec := {}
deriving DecidableEq, Repr

/-- The `appsv1.ReplicaSet`. -/
structure ReplicaSet where
  TypeMeta : TypeMeta := {}
  ObjectMeta : ObjectMeta := {}
  Spec : ReplicaSetSpec := {}
deriving DecidableEq, Repr

/-- The errors of an API call, as `kerror.IsAlreadyExists` and
`kerror.IsNotFound` tell them apart. -/
inductive ApiError where
  | AlreadyExists
  | NotFound
  | Other
deriving DecidableEq, Repr

/-- The patch types of `k8s.io/apimachinery/pkg/types`. -/
inductive PatchType where
  | JSONPatchType
  | MergePatchType
  | StrategicMergePatchType
  | ApplyPatchType
deriving DecidableEq, Repr

/-- The calls that the provider issues on the two clusters. -/
inductive ApiCall where
  | PatchPod (ns name : String) (pt : PatchType) (data : String)
  | CreateReplicaSet (ns : String) (rs : ReplicaSet)
  | DeleteReplicaSet (ns name : String)
deriving DecidableEq, Repr

/-- What `CreatePod` uses and this file does not define: the functions of the
packages `forge` and `serviceEnv`, the constant
`virtualKubelet.HomePodFinalizer`, and the two API clients. The type `σ` is the
state of the two clusters and of the cache; a failed call leaves it as it is. -/
structure LiqoProvider (σ : Type) where
  HomeToForeign : Pod → Except String Pod
  TranslateServiceEnvVariables : σ → Pod → String → String → Except String Pod
  ReplicasetFromPod : Pod → ReplicaSet
  HomePodFinalizer : String
  PatchPod : σ → String → String → PatchType → String → Except ApiError σ
  CreateReplicaSet : σ → String → ReplicaSet → Except ApiError σ

/-- What one call of a provider method leaves behind: the returned error, the
state of the clusters and the API calls issued, in order. -/
structure ProviderResult (σ : Type) where
  err : Option String
  state : σ
  calls : List ApiCall

/-- Lines 57-59: the bytes of the finalizer patch. -/
def finalizerPatch (finalizer : String) : String :=
  "[\x7b\"op\":\"add\",\"path\":\"/metadata/finalizers\",\"value\":[\"" ++ finalizer ++ "\"]\x7d]"

/-- The test of line 36. -/
def firstOwnerIsDaemonSet (homePod : Pod) : Bool :=
  match homePod.ObjectMeta.OwnerReferences with
  | none => false
  | some refs =>
    refs.length != 0 &&
      match refs[0]? with
      | some ref => ref.Kind == "DaemonSet"
      | none => false

/-- The method `CreatePod`; `homePod` is `none` for the nil pointer. -/
def CreatePod {σ : Type} (p : LiqoProvider σ) (w : σ) (homePod : Option Pod) :
    ProviderResult σ :=
  match homePod with
  | none => { err := none, state := w, calls := [] }
  | some homePod =>
    if firstOwnerIsDaemonSet homePod then { err := none, state := w, calls := [] }
    else
      match p.HomeToForeign homePod with
      | .error _ => { err := none, state := w, calls := [] }
      | .ok foreignPod =>
        match p.TranslateServiceEnvVariables w foreignPod homePod.ObjectMeta.Namespace
            foreignPod.ObjectMeta.Namespace with
        | .error _ => { err := none, state := w, calls := [] }
        | .ok foreignPod =>
          let foreignReplicaset := p.ReplicasetFromPod foreignPod
          let patch := ApiCall.PatchPod homePod.ObjectMeta.Namespace homePod.ObjectMeta.Name
            PatchType.JSONPatchType (finalizerPatch p.HomePodFinalizer)
          match p.PatchPod w homePod.ObjectMeta.Namespace homePod.ObjectMeta.Name
              PatchType.JSONPatchType (finalizerPatch p.HomePodFinalizer) with
          | .error _ => { err := none, state := w, calls := [patch] }
          | .ok w' =>
            let create := ApiCall.CreateReplicaSet foreignReplicaset.ObjectMeta.Namespace
              foreignReplicaset
            match p.CreateReplicaSet w' foreignReplicaset.ObjectMeta.Namespace
                foreignReplicaset with
            | .error _ => { err := none, state := w', calls := [patch, create] }
            | .ok w'' => { err := none, state := w'', calls := [patch, create] }

/-- A local subset that a new remote object can take without a panic: no
address to copy and no port. -/
def harmless (eps : EndpointSubset) : Bool :=
  !contributes eps && eps.Ports.isEmpty

/-! ## Concrete objects -/

/-- An endpoints object whose only address is on a virtual node. -/
def virtualOnly : Endpoints :=
  { ObjectMeta := { Name := "web", Namespace := "default" }
    Subsets :=
      [{ Addresses := [{ IP := "10.0.0.1", NodeName := some "vk-cluster2" }]
         Ports := [{ Name := "http", Port := 80, Protocol := "TCP" }] }] }

/-- An endpoints object with one subset: an address on a worker node between
two addresses on virtual nodes. -/
def oneSubset : Endpoints :=
  { ObjectMeta := { Name := "web", Namespace := "default" }
    Subsets :=
      [{ Addresses :=
           [{ IP := "10.0.0.1", NodeName := some "vk-cluster2" },
            { IP := "10.0.0.2", Hostname := "web-0", NodeName := some "worker-1",
              TargetRef := some { Kind := "Pod", Namespace := "default", Name := "web-0" } },
            { IP := "10.0.0.3", NodeName := some "vk-cluster3" }]
         Ports := [{ Name := "http", Port := 80, Protocol := "TCP" }] }] }

/-- A remote endpoints object that already has one address in its only subset. -/
def oneSubsetRemote : Endpoints :=
  { ObjectMeta := { Name := "web", Namespace := "default" }
    Subsets :=
      [{ Addresses := [{ IP := "10.1.0.9" }]
         Ports := [{ Name := "http", Port := 80, Protocol := "TCP" }] }] }

/-- The remote object `oneSubsetRemote` after the update from `oneSubset`. -/
def oneSubsetUpdated : Endpoints :=
  { ObjectMeta := { Name := "web", Namespace := "default" }
    Subsets :=
      [{ Addresses := [{ IP := "10.1.0.9" }, { IP := "10.0.0.2", Hostname := "web-0" }]
         Ports := [{ Name := "http", Port := 80, Protocol := "TCP" }] }] }

/-- An endpoints object with two subsets: the first has an address on a worker
node, the second only an address on a virtual node. -/
def mixedSubsets : Endpoints :=
  { ObjectMeta := { Name := "web", Namespace := "default" }
    Subsets :=
      [{ Addresses := [{ IP := "10.0.0.2", NodeName := some "worker-1" }] },
       { Addresses := [{ IP := "10.0.0.1", NodeName := some "vk-cluster2" }] }] }

/-- A remote endpoints object with two empty subsets. -/
def twoSubsetsRemote : Endpoints :=
  { ObjectMeta := { Name := "web", Namespace := "default" }
    Subsets := [{}, {}] }

/-- An endpoints object with two subsets that both have an address on a worker
node. -/
def workerSubsets : Endpoints :=
  { ObjectMeta := { Name := "web", Namespace := "default" }
    Subsets :=
      [{ Addresses :=
           [{ IP := "10.0.0.2", NodeName := some "worker-1" },
            { IP := "10.0.0.1", NodeName := some "vk-cluster2" }] },
       { Addresses := [{ IP := "10.0.0.4", NodeName := some "worker-2" }] }] }

/-- The slice of `workerSubsets` for the service `web`. -/
def workerSlice : v1beta1.EndpointSlice :=
  { ObjectMeta :=
      { Name := "web", Namespace := "default"
        Labels := some
          [("endpointslice.kubernetes.io/managed-by", "vk"),
           ("kubernetes.io/service-name", "web")] }
    AddressType := "IPv4"
    Endpoints :=
      [{ Addresses := ["10.0.0.2"], Conditions := { Ready := some true } },
       { Addresses := ["10.0.0.4"], Conditions := { Ready := some true } }]
    Ports := [] }

/-- An endpoints object with an address that has no node name. -/
def noNodeName : Endpoints :=
  { ObjectMeta := { Name := "web", Namespace := "default" }
    Subsets := [{ Addresses := [{ IP := "10.0.0.5", NodeName := none }] }] }

/-- A home service with annotations and a cluster IP. -/
def webService : Service :=
  { ObjectMeta :=
      { Name := "web", Namespace := "default"
        Labels := some [("app", "web")]
        Annotations := some [("kubectl.kubernetes.io/last-applied-configuration", "...")] }
    Spec :=
      { Ports := [{ Name := "http", Protocol := "TCP", Port := 80, TargetPort := "8080" }]
        Selector := some [("app", "web")]
        ClusterIP := "10.96.0.12"
        Type_ := "ClusterIP"
        SessionAffinity := "None" } }

/-- A provider whose collaborators all succeed and whose clusters have no
state: the foreign pod is the home pod, and the replica set wraps it. -/
def plainProvider : LiqoProvider Unit :=
  { HomeToForeign := fun pod => .ok pod
    TranslateServiceEnvVariables := fun _ pod _ _ => .ok pod
    ReplicasetFromPod := fun pod =>
      { ObjectMeta := { Name := pod.ObjectMeta.Name, Namespace := pod.ObjectMeta.Namespace }
        Spec := { Replicas := some 1, TemplateSpec := pod.Spec } }
    HomePodFinalizer := "virtual-kubelet.liqo.io/provider"
    PatchPod := fun w _ _ _ _ => .ok w
    CreateReplicaSet := fun w _ _ => .ok w }

/-- A home pod owned by a daemon set. -/
def daemonSetPod : Pod :=
  { ObjectMeta :=
      { Name := "agent-x7k", Namespace := "default"
        OwnerReferences := some [{ APIVersion := "apps/v1", Kind := "DaemonSet", Name := "agent" }] } }

/-- A home pod whose second owner reference is a daemon set. -/
def secondOwnerPod : Pod :=
  { ObjectMeta :=
      { Name := "agent-x7k", Namespace := "default"
        OwnerReferences := some
          [{ APIVersion := "apps/v1", Kind := "ReplicaSet", Name := "agent-5d9" },
           { APIVersion := "apps/v1", Kind := "DaemonSet", Name := "agent" }] } }

/-! ## The two clusters behind `CreatePod` -/

/-- The state of the two API servers that `CreatePod` writes to: the pods of
the home cluster and the replica sets of the foreign cluster, the latter keyed
by namespace and name. -/
structure Clusters where
  homePods : List Pod := []
  foreignReplicaSets : List ReplicaSet := []
deriving DecidableEq, Repr

/-- The pod is the one of this namespace and name. -/
def isPod (ns name : String) (pod : Pod) : Bool :=
  pod.ObjectMeta.Namespace == ns && pod.ObjectMeta.Name == name

/-- The replica set is the one of this namespace and name. -/
def isReplicaSet (ns name : String) (rs : ReplicaSet) : Bool :=
  rs.ObjectMeta.Namespace == ns && rs.ObjectMeta.Name == name

/-- The foreign API server on `ReplicaSets(ns).Create(rs)`: an existing key is
refused with `AlreadyExists` and the stored replica sets stay as they are;
otherwise the replica set is stored in namespace `ns`. -/
def createForeignReplicaSet (w : Clusters) (ns : String) (rs : ReplicaSet) :
    Except ApiError Clusters :=
  if w.foreignReplicaSets.any (isReplicaSet ns rs.ObjectMeta.Name) then .error .AlreadyExists
  else
    .ok { w with
      foreignReplicaSets := w.foreignReplicaSets ++
        [{ rs with ObjectMeta := { rs.ObjectMeta with Namespace := ns } }] }

/-- The bytes of the finalizer patch before the token. -/
def patchHead : String :=
  "[\x7b\"op\":\"add\",\"path\":\"/metadata/finalizers\",\"value\":[\""

/-- The bytes of the finalizer patch after the token. -/
def patchTail : String :=
  "\"]\x7d]"

/-- The reading of a JSON Patch document (RFC 6902) made of one `add`
operation on `/metadata/finalizers` whose value is a list of one string: the
string, taken as `fmt.Sprintf` wrote it. Other documents are not read. -/
def decodeFinalizersAdd (data : String) : Option String :=
  let d := data.toList
  if patchHead.toList.isPrefixOf d && patchTail.toList.isSuffixOf d
      && patchHead.length + patchTail.length ≤ d.length then
    some (String.mk ((d.drop patchHead.length).take
      (d.length - patchHead.length - patchTail.length)))
  else none

/-- The pods after the member `/metadata/finalizers` of the pod of this
namespace and name is set to the list of the one string `token`. -/
def patchedPods (pods : List Pod) (ns name token : String) : List Pod :=
  pods.map fun pod =>
    if isPod ns name pod then
      { pod with ObjectMeta := { pod.ObjectMeta with Finalizers := [token] } }
    else pod

/-- The home API server on `Pods(ns).Patch(name, pt, data)`: `NotFound` when
the pod is not there; a JSON Patch `add` on `/metadata/finalizers` sets that
member to the value of the operation, which replaces the member when it is
there (RFC 6902, section 4.1), and touches nothing else; other patches are
outside this model and are refused. -/
def patchHomePod (w : Clusters) (ns name : String) (pt : PatchType) (data : String) :
    Except ApiError Clusters :=
  if w.homePods.any (isPod ns name) then
    match pt, decodeFinalizersAdd data with
    | .JSONPatchType, some token =>
      .ok { w with homePods := patchedPods w.homePods ns name token }
    | _, _ => .error .Other
  else .error .NotFound

/-- The provider `p` on the two clusters: its translation functions, which do
not read the clusters, with the two API servers as clients. -/
def withClusters (p : LiqoProvider Unit) : LiqoProvider Clusters :=
  { HomeToForeign := p.HomeToForeign
    TranslateServiceEnvVariables := fun _ => p.TranslateServiceEnvVariables ()
    ReplicasetFromPod := p.ReplicasetFromPod
    HomePodFinalizer := p.HomePodFinalizer
    PatchPod := patchHomePod
    CreateReplicaSet := createForeignReplicaSet }

/-- The replica set that `CreatePod` sends for a home pod: none when the pod
is skipped at line 36 or one of the two translations fails. -/
def foreignReplicasetOf (p : LiqoProvider Unit) (homePod : Pod) : Option ReplicaSet :=
  if firstOwnerIsDaemonSet homePod then none
  else
    match p.HomeToForeign homePod with
    | .error _ => none
    | .ok foreignPod =>
      match p.TranslateServiceEnvVariables () foreignPod homePod.ObjectMeta.Namespace
          foreignPod.ObjectMeta.Namespace with
      | .error _ => none
      | .ok foreignPod => some (p.ReplicasetFromPod foreignPod)

/-- The clusters `webClusters` after the finalizer patch on `webPod`: the token
is the only finalizer of the pod. -/
def webClustersPatched : Clusters :=
  { homePods :=
      [{ ObjectMeta :=
           { Name := "web-0", Namespace := "default"
             Labels := some [("app", "web")]
             Finalizers := ["virtual-kubelet.liqo.io/provider"] }
         Spec := { Containers := [{ Name := "web", Image := "nginx" }] } }]
    foreignReplicaSets := [] }

/-- The method `CreatePod` invoked twice for the same home pod: the result of
the second invocation, which starts from the state that the first has left. -/
def CreatePodTwice (p : LiqoProvider Unit) (w : Clusters) (homePod : Pod) :
    ProviderResult Clusters :=
  CreatePod (withClusters p) (CreatePod (withClusters p) w (some homePod)).state (some homePod)

/-- A home pod that already has a finalizer. -/
def webPod : Pod :=
  { ObjectMeta :=
      { Name := "web-0", Namespace := "default"
        Labels := some [("app", "web")]
        Finalizers := ["example.com/backup"] }
    Spec := { Containers := [{ Name := "web", Image := "nginx" }] } }

/-- The replica set that `plainProvider` makes of `webPod`. -/
def webReplicaSet : ReplicaSet :=
  { ObjectMeta := { Name := "web-0", Namespace := "default" }
    Spec :=
      { Replicas := some 1
        TemplateSpec := { Containers := [{ Name := "web", Image := "nginx" }] } } }

/-- The two clusters with `webPod` on the home side and nothing on the foreign
side. -/
def webClusters : Clusters :=
  { homePods := [webPod], foreignReplicaSets := [] }

/-! ## `watchEP`, after the two reads (reflector.go, lines 105-120) -/

/-- The calls of the typed client `remoteClient.CoreV1().Endpoints(namespace)`
that write. -/
inductive EndpointsCall where
  | Create (ns : String) (endpoints : Endpoints)
  | Update (ns : String) (endpoints : Endpoints)
deriving DecidableEq, Repr

/-- What one iteration of `watchEP` leaves behind from line 105 on: the calls
issued and the panic that stopped it, if any. -/
structure WatchEPResult where
  calls : List EndpointsCall
  panic : Option RuntimePanic
deriving DecidableEq, Repr

/-- Lines 105-120: `generateEP`, then a create when the remote object is nil
and an update when it is not. After the create both log lines read
`endpointsRemote.Name` on the nil pointer (lines 109 and 111). -/
def watchEPPost (ns : String) (localEndpoints : Endpoints)
    (endpointsRemote : Option Endpoints) : WatchEPResult :=
  match generateEP localEndpoints endpointsRemote with
  | .error e => { calls := [], panic := some e }
  | .ok endpointsToPost =>
    match endpointsToPost, endpointsRemote with
    | some toPost, none => { calls := [.Create ns toPost], panic := some .nilDereference }
    | some toPost, some _ => { calls := [.Update ns toPost], panic := none }
    | none, _ => { calls := [], panic := none }

/-- The object `oneSubsetUpdated` after a second update from `oneSubset`. -/
def oneSubsetUpdatedTwice : Endpoints :=
  { ObjectMeta := { Name := "web", Namespace := "default" }
    Subsets :=
      [{ Addresses :=
           [{ IP := "10.1.0.9" }, { IP := "10.0.0.2", Hostname := "web-0" },
            { IP := "10.0.0.2", Hostname := "web-0" }]
         Ports := [{ Name := "http", Port := 80, Protocol := "TCP" }] }] }

/-! ## `DeletePod`, `GetPod` and `GetPodStatus` (pods.go, lines 98-190) -/

/-- The error of a call of the foreign client: the reason that
`kerror.IsNotFound` tests, and the text that `err.Error()` returns. -/
structure ClientError where
  Reason : ApiError
  Text : String
deriving DecidableEq, Repr

/-- What the three methods use and this file does not define: the namespace
mapper, the two reads of the cache manager (on pods), the delete of the
foreign client, and the constants `virtualKubelet.ReflectedpodKey` and
`vkContext.DeleteDanglingPods`. The type `σ` is the state of the mapper, of
the cache and of the foreign cluster; the reads leave it as it is, and the
error of a read is its text (what `err.Error()` returns). -/
structure ProviderClients (σ : Type) where
  NatNamespace : σ → String → Bool → Except String String
  GetForeignApiByIndex : σ → String → String → Except String Pod
  GetHomeNamespacedObject : σ → String → String → Except String Pod
  DeleteReplicaSet : σ → String → String → Except ClientError σ
  ReflectedpodKey : String
  DeleteDanglingPods : Nat

/-- The reads of the namespace mapper and of the cache manager. -/
inductive Lookup where
  | NatNamespace (ns : String) (create : Bool)
  | GetForeignApiByIndex (ns name : String)
  | GetHomeNamespacedObject (ns name : String)
deriving DecidableEq, Repr

/-- Go `m[key]` on a `map[string]string`: the empty string when the key is
absent. -/
def mapIndex (m : List (String × String)) (key : String) : String :=
  (m.lookup key).getD ""

/-- What `DeletePod` leaves behind: the returned error, the state, the API
calls issued and the reads made, in order. -/
structure DeletePodResult (σ : Type) where
  err : Option String
  state : σ
  calls : List ApiCall
  lookups : List Lookup

/-- Lines 127-138: the delete on the foreign cluster and what is returned;
`errors.Wrap(err, msg)` is the error of text `msg: ` followed by the text of
`err`. -/
def deleteForeignReplicaSet {σ : Type} (c : ProviderClients σ) (w : σ)
    (foreignNamespace replicasetName : String) (lookups : List Lookup) : DeletePodResult σ :=
  match c.DeleteReplicaSet w foreignNamespace replicasetName with
  | .error e =>
    if e.Reason = .NotFound then
      { err := none, state := w
        calls := [.DeleteReplicaSet foreignNamespace replicasetName], lookups := lookups }
    else
      { err := some ("Unable to delete foreign replicaset: " ++ e.Text), state := w
        calls := [.DeleteReplicaSet foreignNamespace replicasetName], lookups := lookups }
  | .ok w' =>
    { err := none, state := w'
      calls := [.DeleteReplicaSet foreignNamespace replicasetName], lookups := lookups }

/-- The method `DeletePod`; `callingFunction` is what
`vkContext.CallingFunction(ctx)` returns (`none` when its second result is
false), and `pod` is `none` for the nil pointer. -/
def DeletePod {σ : Type} (c : ProviderClients σ) (w : σ) (callingFunction : Option Nat)
    (pod : Option Pod) : DeletePodResult σ :=
  match pod with
  | none => { err := some "received nil pod to delete", state := w, calls := [], lookups := [] }
  | some pod =>
    let dangling : Bool :=
      match callingFunction with
      | some value => value == c.DeleteDanglingPods
      | none => false
    if dangling then
      let foreignNamespace := pod.ObjectMeta.Namespace
      let replicasetName :=
        match pod.ObjectMeta.Labels with
        | some labels => mapIndex labels c.ReflectedpodKey
        | none => ""
      if replicasetName == "" then { err := none, state := w, calls := [], lookups := [] }
      else deleteForeignReplicaSet c w foreignNamespace replicasetName []
    else
      let replicasetName := pod.ObjectMeta.Name
      match c.NatNamespace w pod.ObjectMeta.Namespace false with
      | .error e =>
        { err := some e, state := w, calls := []
          lookups := [.NatNamespace pod.ObjectMeta.Namespace false] }
      | .ok foreignNamespace =>
        deleteForeignReplicaSet c w foreignNamespace replicasetName
          [.NatNamespace pod.ObjectMeta.Namespace false]

/-- What `GetPod` returns, and the reads it made. -/
structure GetPodResult where
  pod : Option Pod
  err : Option String
  lookups : List Lookup
deriving DecidableEq, Repr

/-- Lines 143-170: the body of `GetPod`, as a function of the value that the
named result `pod` has on entry. -/
def getPodBody {σ : Type} (c : ProviderClients σ) (w : σ) (pod : Option Pod)
    (ns name : String) : GetPodResult :=
  match pod with
  | none => { pod := none, err := none, lookups := [] }
  | some _ =>
    match c.NatNamespace w ns false with
    | .error _ => { pod := none, err := none, lookups := [.NatNamespace ns false] }
    | .ok foreignNamespace =>
      match c.GetForeignApiByIndex w foreignNamespace name with
      | .error _ =>
        { pod := none, err := none
          lookups := [.NatNamespace ns false, .GetForeignApiByIndex foreignNamespace name] }
      | .ok _ =>
        match c.GetHomeNamespacedObject w ns name with
        | .error _ =>
          { pod := none, err := none
            lookups := [.NatNamespace ns false, .GetForeignApiByIndex foreignNamespace name,
              .GetHomeNamespacedObject ns name] }
        | .ok homePod =>
          { pod := some homePod, err := none
            lookups := [.NatNamespace ns false, .GetForeignApiByIndex foreignNamespace name,
              .GetHomeNamespacedObject ns name] }

/-- The method `GetPod`: its named result `pod` is nil on entry (the zero
value of a pointer), and line 143 tests it. -/
def GetPod {σ : Type} (c : ProviderClients σ) (w : σ) (ns name : String) : GetPodResult :=
  getPodBody c w none ns name

/-- What `GetPodStatus` returns, and the reads it made. -/
structure GetPodStatusResult where
  status : Option PodStatus
  err : Option String
  lookups : List Lookup
deriving DecidableEq, Repr

/-- The method `GetPodStatus`; `errors.Wrap(err, msg)` is the error of text
`msg: ` followed by the text of `err`. -/
def GetPodStatus {σ : Type} (c : ProviderClients σ) (w : σ) (ns name : String) :
    GetPodStatusResult :=
  match c.NatNamespace w ns false with
  | .error _ => { status := none, err := none, lookups := [.NatNamespace ns false] }
  | .ok foreignNamespace =>
    match c.GetForeignApiByIndex w foreignNamespace name with
    | .error e =>
      { status := none, err := some ("error while retrieving foreign pod: " ++ e)
        lookups := [.NatNamespace ns false, .GetForeignApiByIndex foreignNamespace name] }
    | .ok foreignPod =>
      { status := some foreignPod.Status, err := none
        lookups := [.NatNamespace ns false, .GetForeignApiByIndex foreignNamespace name] }

/-- A state for the three methods: the table of the namespace mapper, the two
sides of the cache, and the replica sets of the foreign cluster. -/
structure Caches where
  namespaces : List (String × String) := []
  foreignPods : List Pod := []
  homePods : List Pod := []
  foreignReplicaSets : List ReplicaSet := []
deriving DecidableEq, Repr

/-- Clients that read `Caches`: the mapper looks the home namespace up in
its table (it is only called with `create = false`), the cache is searched by
namespace and name, and a delete removes the replica set or is `NotFound`. -/
def cacheClients : ProviderClients Caches :=
  { NatNamespace := fun w ns _ =>
      match w.namespaces.lookup ns with
      | some foreignNamespace => .ok foreignNamespace
      | none => .error "namespace not mapped"
    GetForeignApiByIndex := fun w ns name =>
      match w.foreignPods.find? (isPod ns name) with
      | some pod => .ok pod
      | none => .error "pod not found"
    GetHomeNamespacedObject := fun w ns name =>
      match w.homePods.find? (isPod ns name) with
      | some pod => .ok pod
      | none => .error "pod not found"
    DeleteReplicaSet := fun w ns name =>
      if w.foreignReplicaSets.any (isReplicaSet ns name) then
        .ok { w with
          foreignReplicaSets := w.foreignReplicaSets.filter fun rs => !isReplicaSet ns name rs }
      else .error { Reason := .NotFound, Text := "replicaset not found" }
    ReflectedpodKey := "virtualkubelet.liqo.io/source-pod"
    DeleteDanglingPods := 1 }

/-- The foreign counterpart of `webPod`, running in the foreign namespace. -/
def webForeignPod : Pod :=
  { ObjectMeta :=
      { Name := "web-0", Namespace := "default-home"
        Labels := some [("virtualkubelet.liqo.io/source-pod", "web-0")] }
    Spec := { Containers := [{ Name := "web", Image := "nginx" }] }
    Status := { Phase := "Running", PodIP := "10.2.0.7" } }

/-- A foreign pod without labels. -/
def unlabeledForeignPod : Pod :=
  { ObjectMeta := { Name := "web-1", Namespace := "default-home" } }

/-- The namespace `default` is mapped, and `web-0` is on both sides of the
cache. -/
def webCaches : Caches :=
  { namespaces := [("default", "default-home")]
    foreignPods := [webForeignPod]
    homePods := [webPod]
    foreignReplicaSets :=
      [{ ObjectMeta := { Name := "web-0", Namespace := "default-home" } }] }

/-- The namespace `default` is mapped, and the foreign side of the cache is
empty. -/
def missingForeignCaches : Caches :=
  { namespaces := [("default", "default-home")]
    homePods := [webPod] }

/-! ## Lemmas on the loops of `generateEP` -/

theorem addrLoop_index (i : Nat) (addrs : List EndpointAddress) :
    ∀ (subsets : List EndpointSubset) (s : EndpointSubset) (flag : Bool),
      subsets[i]? = some s →
      addrLoop i addrs (subsets, flag) =
        .ok (subsets.set i { s with Addresses := s.Addresses ++ copied addrs },
             flag || addrs.any qualifies) := by
  induction addrs with
  | nil =>
    intro subsets s flag h
    obtain ⟨hi, hs⟩ := List.getElem?_eq_some.mp h
    have hset : subsets.set i subsets[i] = subsets := by
      apply List.ext_getElem (by simp)
      intro n h₁ h₂
      by_cases hn : i = n
      · subst hn; simp
      · simp [List.getElem_set, hn]
    subst hs
    simpa [addrLoop, copied] using hset.symm
  | cons addr rest ih =>
    intro subsets s flag h
    obtain ⟨hi, hs⟩ := List.getElem?_eq_some.mp h
    cases hn : addr.NodeName with
    | none =>
      simp [addrLoop, hn, ih subsets s flag h, copied, qualifies]
    | some n =>
      by_cases hp : HasPrefix n "vk" = true
      · simp [addrLoop, hn, hp, ih subsets s flag h, copied, qualifies]
      · have hp' : HasPrefix n "vk" = false := by simpa using hp
        have h' : (subsets.set i { s with Addresses := s.Addresses ++ [newAddress addr] })[i]? =
            some { s with Addresses := s.Addresses ++ [newAddress addr] } := by
          simp [List.getElem?_set, hi]
        simp [addrLoop, hn, hp', appendAddress, h, ih _ _ true h', copied, qualifies]

theorem addrLoop_none (i : Nat) (addrs : List EndpointAddress)
    (st : List EndpointSubset × Bool) (h : addrs.any qualifies = false) :
    addrLoop i addrs st = .ok st := by
  induction addrs with
  | nil => simp [addrLoop]
  | cons addr rest ih =>
    obtain ⟨subsets, flag⟩ := st
    simp only [List.any_cons, Bool.or_eq_false_iff] at h
    cases hn : addr.NodeName with
    | none => simp [addrLoop, hn, ih h.2]
    | some n =>
      have hq := h.1
      simp only [qualifies, hn] at hq
      have hp : HasPrefix n "vk" = true := by simpa using hq
      simp [addrLoop, hn, hp, ih h.2]

theorem subsetLoop_update (ls : List EndpointSubset) :
    ∀ (pre rs : List EndpointSubset) (flag : Bool), ls.length ≤ rs.length →
      subsetLoop false pre.length ls (pre ++ rs, flag) =
        .ok (pre ++ mergeSubsets ls rs, flag || ls.any contributes) := by
  induction ls with
  | nil => intro pre rs flag _; simp [subsetLoop, mergeSubsets]
  | cons l ls ih =>
    intro pre rs flag hlen
    cases rs with
    | nil => simp at hlen
    | cons r rs =>
      have hr : (pre ++ r :: rs)[pre.length]? = some r := by
        rw [List.getElem?_append_right (Nat.le_refl _)]; simp
      have hlen' : ls.length ≤ rs.length := by simpa using hlen
      have step := ih (pre ++ [{ r with Addresses := r.Addresses ++ copied l.Addresses }]) rs
        (flag || l.Addresses.any qualifies) hlen'
      simp only [List.length_append, List.length_singleton, List.append_assoc,
        List.singleton_append] at step
      simp [subsetLoop, addrLoop_index _ _ _ _ _ hr, mergeSubsets, step, contributes,
        Bool.or_assoc]

theorem subsetLoop_none (i : Nat) (ls : List EndpointSubset)
    (st : List EndpointSubset × Bool) (h : ls.any contributes = false) :
    subsetLoop false i ls st = .ok st := by
  induction ls generalizing i with
  | nil => simp [subsetLoop]
  | cons l ls ih =>
    simp only [List.any_cons, Bool.or_eq_false_iff] at h
    have hl : l.Addresses.any qualifies = false := h.1
    simp [subsetLoop, addrLoop_none _ _ _ hl, ih _ h.2]

/-- The remote object is present and has a subset for every local subset:
`generateEP` does not panic, and returns the updated remote exactly when some
local address qualifies. -/
theorem generateEP_present (L R : Endpoints)
    (hlen : L.Subsets.length ≤ R.Subsets.length) :
    generateEP L (some R) =
      .ok (if L.Subsets.any contributes = true
        then some { R with Subsets := mergeSubsets L.Subsets R.Subsets } else none) := by
  have h := subsetLoop_update L.Subsets [] R.Subsets false hlen
  simp only [List.length_nil, List.nil_append, Bool.false_or] at h
  unfold generateEP
  simp only [Option.isNone_some, h]
  cases L.Subsets.any contributes <;> simp

/-- The remote object is present and no local address qualifies: the result is
nil, whatever the number of remote subsets. -/
theorem generateEP_present_none (L R : Endpoints)
    (h : L.Subsets.any contributes = false) :
    generateEP L (some R) = .ok none := by
  unfold generateEP
  simp [subsetLoop_none _ _ _ h]

theorem addrLoop_empty (i : Nat) (addrs : List EndpointAddress) (flag : Bool) :
    addrLoop i addrs ([], flag) =
      if addrs.any qualifies = true then .error .indexOutOfRange else .ok ([], flag) := by
  induction addrs with
  | nil => simp [addrLoop]
  | cons addr rest ih =>
    cases hn : addr.NodeName with
    | none => simp [addrLoop, hn, ih, qualifies]
    | some n =>
      cases hp : HasPrefix n "vk" <;>
        simp [addrLoop, hn, hp, ih, qualifies, appendAddress]

theorem portLoop_empty (i : Nat) (ports : List EndpointPort) :
    portLoop i ports [] =
      if ports.isEmpty = true then .ok [] else .error .indexOutOfRange := by
  cases ports <;> simp [portLoop, appendPort]

theorem subsetLoop_empty (ls : List EndpointSubset) (i : Nat) (flag : Bool) :
    subsetLoop true i ls ([], flag) =
      if ls.all harmless = true then .ok ([], flag) else .error .indexOutOfRange := by
  induction ls generalizing i with
  | nil => simp [subsetLoop]
  | cons l ls ih =>
    cases hc : l.Addresses.any qualifies <;> cases hp : l.Ports.isEmpty <;>
      simp [subsetLoop, addrLoop_empty, portLoop_empty, harmless, contributes, hc, hp, ih]

/-- The remote object is absent: `generateEP` never returns an object; it
returns nil when no subset has an address to copy or a port, and panics on
the empty `Subsets` of the new object otherwise. -/
theorem generateEP_absent (L : Endpoints) :
    generateEP L none =
      if L.Subsets.all harmless = true then .ok none else .error .indexOutOfRange := by
  unfold generateEP
  simp only [Option.isNone_none, subsetLoop_empty]
  cases L.Subsets.all harmless <;> simp

/-! ## Lemmas on the loops of `generateSlice` -/

theorem sliceAddrLoop_ok (addrs : List EndpointAddress)
    (h : ∀ a ∈ addrs, a.NodeName ≠ none) (endpoints : List v1beta1.Endpoint) (flag : Bool) :
    sliceAddrLoop addrs (endpoints, flag) =
      .ok (endpoints ++ (addrs.filter qualifies).map newEndpoint,
           flag || addrs.any qualifies) := by
  induction addrs generalizing endpoints flag with
  | nil => simp [sliceAddrLoop]
  | cons addr rest ih =>
    have hrest : ∀ a ∈ rest, a.NodeName ≠ none := fun a ha => h a (List.mem_cons_of_mem _ ha)
    cases hn : addr.NodeName with
    | none => exact absurd hn (h addr (List.mem_cons_self _ _))
    | some n =>
      cases hp : HasPrefix n "vk" <;>
        simp [sliceAddrLoop, hn, hp, ih hrest, qualifies]

theorem sliceSubsetLoop_ok (subsets : List EndpointSubset)
    (h : ∀ s ∈ subsets, ∀ a ∈ s.Addresses, a.NodeName ≠ none)
    (epSlice : v1beta1.EndpointSlice) :
    sliceSubsetLoop subsets epSlice =
      .ok (if subsets.all contributes = true then
        some { epSlice with
          Endpoints := epSlice.Endpoints ++ sliceEndpoints subsets
          Ports := epSlice.Ports ++ subsets.flatMap fun s => slicePorts s.Ports }
        else none) := by
  induction subsets generalizing epSlice with
  | nil => simp [sliceSubsetLoop, sliceEndpoints]
  | cons ep rest ih =>
    have hrest : ∀ s ∈ rest, ∀ a ∈ s.Addresses, a.NodeName ≠ none :=
      fun s hs => h s (List.mem_cons_of_mem _ hs)
    have hep := h ep (List.mem_cons_self _ _)
    cases hc : ep.Addresses.any qualifies with
    | false => simp [sliceSubsetLoop, sliceAddrLoop_ok _ hep, contributes, hc]
    | true =>
      simp [sliceSubsetLoop, sliceAddrLoop_ok _ hep, contributes, hc, ih hrest, sliceEndpoints]

/-- With a node name on every address `generateSlice` does not panic, and the
slice it returns is the empty slice of the service with one endpoint per
qualifying address. -/
theorem generateSlice_ok (endpoints : Endpoints) (svc : Service)
    (h : allNodeNames endpoints) :
    generateSlice endpoints svc =
      .ok (if endpoints.Subsets.all contributes = true then
        some { emptySlice svc with
          Endpoints := sliceEndpoints endpoints.Subsets
          Ports := endpoints.Subsets.flatMap fun s => slicePorts s.Ports }
        else none) := by
  unfold generateSlice
  rw [sliceSubsetLoop_ok _ h]
  simp [emptySlice]

/-! ## Lemmas on the filter and on the updated subsets -/

theorem qualifies_iff (a : EndpointAddress) :
    qualifies a = true ↔ ∃ n, a.NodeName = some n ∧ HasPrefix n "vk" = false := by
  unfold qualifies
  cases a.NodeName <;> simp

theorem qualifies_eq_false_iff (a : EndpointAddress) :
    qualifies a = false ↔ ∀ n, a.NodeName = some n → HasPrefix n "vk" = true := by
  unfold qualifies
  cases a.NodeName <;> simp

theorem contributes_eq_false_iff (s : EndpointSubset) :
    contributes s = false ↔
      ∀ a ∈ s.Addresses, ∀ n, a.NodeName = some n → HasPrefix n "vk" = true := by
  unfold contributes
  rw [List.any_eq_false]
  constructor
  · intro h a ha
    exact (qualifies_eq_false_iff a).mp (by simpa using h a ha)
  · intro h a ha
    simpa using (qualifies_eq_false_iff a).mpr (h a ha)

theorem any_contributes_eq_false_iff (ls : List EndpointSubset) :
    ls.any contributes = false ↔ ∀ s ∈ ls, contributes s = false := by
  rw [List.any_eq_false]
  constructor
  · intro h s hs; simpa using h s hs
  · intro h s hs; simpa using h s hs

theorem mergeSubsets_length (ls : List EndpointSubset) :
    ∀ rs : List EndpointSubset, ls.length ≤ rs.length →
      (mergeSubsets ls rs).length = rs.length := by
  induction ls with
  | nil => intro rs _; simp [mergeSubsets]
  | cons l ls ih =>
    intro rs h
    cases rs with
    | nil => simp at h
    | cons r rs => simp [mergeSubsets, ih rs (by simpa using h)]

theorem mergeSubsets_getElem? (ls : List EndpointSubset) :
    ∀ (rs : List EndpointSubset) (i : Nat) (l : EndpointSubset),
      ls.length ≤ rs.length → ls[i]? = some l →
      ∃ r, rs[i]? = some r ∧
        (mergeSubsets ls rs)[i]? =
          some { r with Addresses := r.Addresses ++ copied l.Addresses } := by
  induction ls with
  | nil => intro rs i l _ hl; simp at hl
  | cons l₀ ls ih =>
    intro rs i l h hl
    cases rs with
    | nil => simp at h
    | cons r rs =>
      cases i with
      | zero =>
        simp only [List.getElem?_cons_zero, Option.some.injEq] at hl
        subst hl
        exact ⟨r, by simp, by simp [mergeSubsets]⟩
      | succ i =>
        simp only [List.getElem?_cons_succ] at hl
        obtain ⟨r', hr', hm⟩ := ih rs i l (by simpa using h) hl
        exact ⟨r', by simpa using hr', by simpa [mergeSubsets] using hm⟩

theorem mergeSubsets_getElem?_ge (ls : List EndpointSubset) :
    ∀ (rs : List EndpointSubset) (i : Nat), ls.length ≤ rs.length → ls.length ≤ i →
      (mergeSubsets ls rs)[i]? = rs[i]? := by
  induction ls with
  | nil => intro rs i _ _; simp [mergeSubsets]
  | cons l₀ ls ih =>
    intro rs i h hi
    cases rs with
    | nil => simp at h
    | cons r rs =>
      cases i with
      | zero => simp at hi
      | succ i =>
        simpa [mergeSubsets] using ih rs i (by simpa using h) (by simpa using hi)

/-! ## `generateEP`: the claims -/

/-- All the addresses of the object are on virtual nodes and the remote object
is present: the result is nil (no update). -/
theorem generateEP_virtual_only_present (L R : Endpoints)
    (h : ∀ s ∈ L.Subsets, ∀ a ∈ s.Addresses, ∃ n, a.NodeName = some n ∧ HasPrefix n "vk" = true) :
    generateEP L (some R) = .ok none := by
  apply generateEP_present_none
  rw [any_contributes_eq_false_iff]
  intro s hs
  rw [contributes_eq_false_iff]
  intro a ha n hn
  obtain ⟨m, hm, hp⟩ := h s hs a ha
  rw [hn] at hm
  cases hm
  exact hp

/-- The nil pointer as remote object, which `watchEP` never passes:
`virtualOnly` has one address, on the virtual node `vk-cluster2`, and one
port; appending the port at line 159 indexes the empty `Subsets` of the new
remote object and panics. -/
theorem generateEP_virtual_only_absent_panics :
    (∃ s ∈ virtualOnly.Subsets, s.Addresses ≠ []) ∧
    (∀ s ∈ virtualOnly.Subsets, ∀ a ∈ s.Addresses,
      ∃ n, a.NodeName = some n ∧ HasPrefix n "vk" = true) ∧
    generateEP virtualOnly none = .error .indexOutOfRange := by
  refine ⟨?_, ?_, ?_⟩
  · simp [virtualOnly]
  · simp [virtualOnly]
    decide
  · decide

/-- C1: when every address of the local object has a node name that starts
with `vk`, `generateEP` yields nil (no update) for every remote object,
whatever its subsets, and so for the empty object that the typed `Get` of
`watchEP` hands over when the remote counterpart is absent; and with the nil
pointer as remote it never yields an object either. No object with empty
address lists is ever posted. -/
theorem generateEP_virtual_only_nil (L : Endpoints)
    (h : ∀ s ∈ L.Subsets, ∀ a ∈ s.Addresses,
      ∃ n, a.NodeName = some n ∧ HasPrefix n "vk" = true) :
    (∀ R : Endpoints, generateEP L (some R) = .ok none) ∧
    generateEP L (some {}) = .ok none ∧
    (∀ out : Endpoints, generateEP L none ≠ .ok (some out)) := by
  refine ⟨fun R => generateEP_virtual_only_present L R h,
    generateEP_virtual_only_present L {} h, fun out => ?_⟩
  rw [generateEP_absent]
  cases L.Subsets.all harmless <;> simp

/-- C1 at `virtualOnly`, whose only address is on `vk-cluster2`: nil against
the remote object `oneSubsetRemote` and against the empty object. -/
theorem generateEP_virtual_only_nil_witness :
    (∃ s ∈ virtualOnly.Subsets, s.Addresses ≠ []) ∧
    (∀ s ∈ virtualOnly.Subsets, ∀ a ∈ s.Addresses,
      ∃ n, a.NodeName = some n ∧ HasPrefix n "vk" = true) ∧
    generateEP virtualOnly (some oneSubsetRemote) = .ok none ∧
    generateEP virtualOnly (some {}) = .ok none :=
  ⟨⟨_, List.mem_cons_self _ _, by decide⟩,
    fun s hs a ha => by
      simp only [virtualOnly, List.mem_singleton] at hs
      subst hs
      simp only [List.mem_singleton] at ha
      subst ha
      exact ⟨"vk-cluster2", rfl, by decide⟩,
    (generateEP_virtual_only_nil virtualOnly (fun s hs a ha => by
      simp only [virtualOnly, List.mem_singleton] at hs
      subst hs
      simp only [List.mem_singleton] at ha
      subst ha
      exact ⟨"vk-cluster2", rfl, by decide⟩)).1 oneSubsetRemote,
    (generateEP_virtual_only_nil virtualOnly (fun s hs a ha => by
      simp only [virtualOnly, List.mem_singleton] at hs
      subst hs
      simp only [List.mem_singleton] at ha
      subst ha
      exact ⟨"vk-cluster2", rfl, by decide⟩)).2.1⟩

/-- C2: when the remote object `R` has a subset for every subset of the local
object `L` and `generateEP L R` is an object `out`, subset `i` of `out` keeps
the previous addresses of subset `i` of `R`, followed by one address for each
address of `L`'s subset `i` whose node name is present and does not start with
`vk`, in `L`'s order, with the same IP and hostname and with node name and
target reference cleared; the other fields of the subset and the subsets
beyond `L`'s are those of `R`. -/
theorem generateEP_appends_qualifying (L R out : Endpoints)
    (hlen : L.Subsets.length ≤ R.Subsets.length)
    (hout : generateEP L (some R) = .ok (some out)) :
    out.Subsets.length = R.Subsets.length ∧
    (∀ (i : Nat) (l : EndpointSubset), L.Subsets[i]? = some l →
      ∃ r o, R.Subsets[i]? = some r ∧ out.Subsets[i]? = some o ∧
        o.Addresses = r.Addresses ++ (l.Addresses.filter qualifies).map newAddress ∧
        o.NotReadyAddresses = r.NotReadyAddresses ∧ o.Ports = r.Ports) ∧
    (∀ i : Nat, L.Subsets.length ≤ i → out.Subsets[i]? = R.Subsets[i]?) ∧
    (∀ a : EndpointAddress,
      qualifies a = true ↔ ∃ n, a.NodeName = some n ∧ HasPrefix n "vk" = false) ∧
    (∀ a : EndpointAddress,
      (newAddress a).IP = a.IP ∧ (newAddress a).Hostname = a.Hostname ∧
        (newAddress a).NodeName = none ∧ (newAddress a).TargetRef = none) := by
  rw [generateEP_present L R hlen] at hout
  have hsub : out.Subsets = mergeSubsets L.Subsets R.Subsets := by
    by_cases hc : L.Subsets.any contributes = true
    · rw [if_pos hc] at hout
      simp only [Except.ok.injEq, Option.some.injEq] at hout
      rw [← hout]
    · rw [if_neg hc] at hout
      simp at hout
  refine ⟨?_, ?_, ?_, qualifies_iff, fun a => ⟨rfl, rfl, rfl, rfl⟩⟩
  · rw [hsub]; exact mergeSubsets_length _ _ hlen
  · intro i l hl
    obtain ⟨r, hr, hm⟩ := mergeSubsets_getElem? L.Subsets R.Subsets i l hlen hl
    exact ⟨r, { r with Addresses := r.Addresses ++ copied l.Addresses }, hr,
      by rw [hsub]; exact hm, rfl, rfl, rfl⟩
  · intro i hi
    rw [hsub]; exact mergeSubsets_getElem?_ge _ _ i hlen hi

/-- C2 at `oneSubset` and `oneSubsetRemote`: the result is `oneSubsetUpdated`,
where the address of `worker-1` follows the remote address and the two
addresses on virtual nodes are not copied. -/
theorem generateEP_appends_qualifying_witness :
    oneSubset.Subsets.length ≤ oneSubsetRemote.Subsets.length ∧
    generateEP oneSubset (some oneSubsetRemote) = .ok (some oneSubsetUpdated) ∧
    oneSubsetUpdated.Subsets.length = oneSubsetRemote.Subsets.length ∧
    ∀ (i : Nat) (l : EndpointSubset), oneSubset.Subsets[i]? = some l →
      ∃ r o, oneSubsetRemote.Subsets[i]? = some r ∧ oneSubsetUpdated.Subsets[i]? = some o ∧
        o.Addresses = r.Addresses ++ (l.Addresses.filter qualifies).map newAddress ∧
        o.NotReadyAddresses = r.NotReadyAddresses ∧ o.Ports = r.Ports :=
  ⟨by decide, by decide,
    (generateEP_appends_qualifying oneSubset oneSubsetRemote oneSubsetUpdated
      (by decide) (by decide)).1,
    (generateEP_appends_qualifying oneSubset oneSubsetRemote oneSubsetUpdated
      (by decide) (by decide)).2.1⟩

/-- C3 as stated fails: the second subset of `mixedSubsets` contributes no
address (its only address is on `vk-cluster2`), and `generateEP` returns the
updated remote object, not nil. -/
theorem generateEP_mixed_subsets_not_nil :
    (∃ s ∈ mixedSubsets.Subsets, contributes s = false) ∧
    generateEP mixedSubsets (some twoSubsetsRemote) =
      .ok (some { twoSubsetsRemote with
        Subsets := [{ Addresses := [{ IP := "10.0.0.2" }] }, {}] }) := by
  refine ⟨⟨{ Addresses := [{ IP := "10.0.0.1", NodeName := some "vk-cluster2" }] }, ?_, ?_⟩, ?_⟩
  · simp [mixedSubsets]
  · decide
  · decide

/-- C3, amended: with a remote object present, `generateEP` returns nil when
no subset of the local object contributes an address after the `vk` filter;
and when the remote object has a subset for every local subset, it returns
nil only then (one contributing subset is enough for an update). -/
theorem generateEP_nil_iff_no_contribution (L R : Endpoints) :
    ((∀ s ∈ L.Subsets, contributes s = false) → generateEP L (some R) = .ok none) ∧
    (L.Subsets.length ≤ R.Subsets.length →
      (generateEP L (some R) = .ok none ↔ ∀ s ∈ L.Subsets, contributes s = false)) := by
  refine ⟨fun h => ?_, fun hlen => ⟨fun h => ?_, fun h => ?_⟩⟩
  · exact generateEP_present_none L R ((any_contributes_eq_false_iff _).mpr h)
  · rw [generateEP_present L R hlen] at h
    rw [← any_contributes_eq_false_iff]
    by_cases hc : L.Subsets.any contributes = true
    · rw [if_pos hc] at h; simp at h
    · simpa using hc
  · exact generateEP_present_none L R ((any_contributes_eq_false_iff _).mpr h)

/-- C3, amended, at `virtualOnly` against `oneSubsetRemote`: no subset
contributes, the result is nil. -/
theorem generateEP_nil_iff_no_contribution_witness :
    (∀ s ∈ virtualOnly.Subsets, contributes s = false) ∧
    virtualOnly.Subsets.length ≤ oneSubsetRemote.Subsets.length ∧
    generateEP virtualOnly (some oneSubsetRemote) = .ok none :=
  ⟨by decide, by decide,
    (generateEP_nil_iff_no_contribution virtualOnly oneSubsetRemote).1 (by decide)⟩

/-! ## `generateSlice`: the claims -/

theorem all_contributes_eq_false_iff (ls : List EndpointSubset) :
    ls.all contributes = false ↔
      ∃ s ∈ ls, ∀ a ∈ s.Addresses, ∀ n, a.NodeName = some n → HasPrefix n "vk" = true := by
  rw [List.all_eq_false]
  constructor
  · rintro ⟨s, hs, hc⟩
    exact ⟨s, hs, (contributes_eq_false_iff s).mp (by simpa using hc)⟩
  · rintro ⟨s, hs, hc⟩
    exact ⟨s, hs, by simpa using (contributes_eq_false_iff s).mpr hc⟩

/-- C4: when every address of the endpoints object has a node name,
`generateSlice` completes, and it returns nil if and only if some subset has
no address whose node name lacks the `vk` prefix; an object with no subsets
gives the empty slice of the service, which is not nil. -/
theorem generateSlice_nil_iff (endpoints : Endpoints) (svc : Service)
    (h : ∀ s ∈ endpoints.Subsets, ∀ a ∈ s.Addresses, a.NodeName ≠ none) :
    (∃ r, generateSlice endpoints svc = .ok r) ∧
    (generateSlice endpoints svc = .ok none ↔
      ∃ s ∈ endpoints.Subsets,
        ∀ a ∈ s.Addresses, ∀ n, a.NodeName = some n → HasPrefix n "vk" = true) ∧
    (endpoints.Subsets = [] →
      generateSlice endpoints svc = .ok (some (emptySlice svc)) ∧
        (emptySlice svc).Endpoints = [] ∧ (emptySlice svc).Ports = []) := by
  have hok := generateSlice_ok endpoints svc h
  refine ⟨⟨_, hok⟩, ?_, ?_⟩
  · rw [← all_contributes_eq_false_iff, hok]
    cases hc : endpoints.Subsets.all contributes <;> simp
  · intro he
    rw [hok, he]
    simp [emptySlice, sliceEndpoints]

/-- C4 at `mixedSubsets`: the second subset is purely on a virtual node, and
the slice is nil although the first subset has an address on `worker-1`. -/
theorem generateSlice_nil_iff_witness :
    (∀ s ∈ mixedSubsets.Subsets, ∀ a ∈ s.Addresses, a.NodeName ≠ none) ∧
    (∃ s ∈ mixedSubsets.Subsets, contributes s = true) ∧
    generateSlice mixedSubsets webService = .ok none :=
  ⟨by decide, by decide,
    (generateSlice_nil_iff mixedSubsets webService (by decide)).2.1.mpr
      ⟨{ Addresses := [{ IP := "10.0.0.1", NodeName := some "vk-cluster2" }] },
        by decide, by decide⟩⟩

/-- C5: when every address has a node name and `generateSlice` returns a
slice, the endpoints of the slice are, in order across the subsets, one
endpoint for each address whose node name does not start with `vk`, with the
IP of the address as its only address and `Ready` set to true; an address on a
`vk` node gives no endpoint. -/
theorem generateSlice_endpoints (endpoints : Endpoints) (svc : Service)
    (epSlice : v1beta1.EndpointSlice)
    (h : ∀ s ∈ endpoints.Subsets, ∀ a ∈ s.Addresses, a.NodeName ≠ none)
    (hs : generateSlice endpoints svc = .ok (some epSlice)) :
    epSlice.Endpoints =
      endpoints.Subsets.flatMap (fun s => (s.Addresses.filter qualifies).map newEndpoint) ∧
    (∀ a : EndpointAddress,
      qualifies a = true ↔ ∃ n, a.NodeName = some n ∧ HasPrefix n "vk" = false) ∧
    (∀ a : EndpointAddress,
      (newEndpoint a).Addresses = [a.IP] ∧ (newEndpoint a).Conditions.Ready = some true) := by
  rw [generateSlice_ok endpoints svc h] at hs
  refine ⟨?_, qualifies_iff, fun a => ⟨rfl, rfl⟩⟩
  by_cases hc : endpoints.Subsets.all contributes = true
  · rw [if_pos hc] at hs
    simp only [Except.ok.injEq, Option.some.injEq] at hs
    rw [← hs]
    rfl
  · rw [if_neg hc] at hs
    simp at hs

/-- C5 at `workerSubsets`: the slice has the endpoints of `worker-1` and
`worker-2`, in this order, and none for the address on `vk-cluster2`. -/
theorem generateSlice_endpoints_witness :
    (∀ s ∈ workerSubsets.Subsets, ∀ a ∈ s.Addresses, a.NodeName ≠ none) ∧
    generateSlice workerSubsets webService = .ok (some workerSlice) ∧
    workerSlice.Endpoints =
      [{ Addresses := ["10.0.0.2"], Conditions := { Ready := some true } },
       { Addresses := ["10.0.0.4"], Conditions := { Ready := some true } }] :=
  ⟨by decide, by decide,
    (generateSlice_endpoints workerSubsets webService workerSlice (by decide) (by decide)).1.trans
      (by decide)⟩

/-- C6, at the input where it fails: `noNodeName` has an address without a
node name, and `generateSlice` panics on the nil dereference of line 191. -/
theorem generateSlice_no_node_name_panics :
    (∃ s ∈ noNodeName.Subsets, ∃ a ∈ s.Addresses, a.NodeName = none) ∧
    generateSlice noNodeName webService = .error .nilDereference := by
  constructor
  · simp [noNodeName]
  · decide

/-- C7, on the code: whenever the local object has an address whose node name
is present and does not start with `vk` and there is no remote counterpart,
`generateEP` panics with an index out of range (line 153 indexes the empty
`Subsets` of the new object); no object is produced. -/
theorem generateEP_absent_qualifying_panics (L : Endpoints)
    (h : ∃ s ∈ L.Subsets, ∃ a ∈ s.Addresses,
      ∃ n, a.NodeName = some n ∧ HasPrefix n "vk" = false) :
    generateEP L none = .error .indexOutOfRange := by
  rw [generateEP_absent]
  obtain ⟨s, hs, a, ha, hq⟩ := h
  have hc : contributes s = true :=
    List.any_eq_true.mpr ⟨a, ha, (qualifies_iff a).mpr hq⟩
  have hall : L.Subsets.all harmless = false :=
    List.all_eq_false.mpr ⟨s, hs, by simp [harmless, hc]⟩
  simp [hall]

/-- C7 at `oneSubset`, which has an address on `worker-1`. -/
theorem generateEP_absent_qualifying_panics_witness :
    (∃ s ∈ oneSubset.Subsets, ∃ a ∈ s.Addresses,
      ∃ n, a.NodeName = some n ∧ HasPrefix n "vk" = false) ∧
    generateEP oneSubset none = .error .indexOutOfRange :=
  ⟨⟨_, List.mem_cons_self _ _, _, List.mem_cons_of_mem _ (List.mem_cons_self _ _),
      "worker-1", rfl, by decide⟩,
    generateEP_absent_qualifying_panics oneSubset
      ⟨_, List.mem_cons_self _ _, _, List.mem_cons_of_mem _ (List.mem_cons_self _ _),
        "worker-1", rfl, by decide⟩⟩

/-! ## `watchServices`: the claims -/

theorem watchServicesStep_create (ns : String) (remote : List Service) (event : ServiceEvent)
    (ns' : String) (svcRemote : Service)
    (h : ServiceCall.Create ns' svcRemote ∈ (watchServicesStep ns remote event).1) :
    ∃ svc, event.Object = some svc ∧ remoteGet remote svc.ObjectMeta.Name = none ∧
      ns' = ns ∧ svcRemote = translateService svc := by
  unfold watchServicesStep at h
  cases ho : event.Object with
  | none => simp [ho] at h
  | some svc =>
    cases hg : remoteGet remote svc.ObjectMeta.Name with
    | some r => simp [ho, hg] at h
    | none =>
      simp [ho, hg] at h
      exact ⟨svc, rfl, hg, h.1, h.2⟩

theorem watchServices_create (ns : String) (events : List ServiceEvent) :
    ∀ (remote : List Service) (ns' : String) (svcRemote : Service),
      ServiceCall.Create ns' svcRemote ∈ (watchServices ns remote events).1 →
      ∃ event ∈ events, ∃ svc, event.Object = some svc ∧
        ns' = ns ∧ svcRemote = translateService svc := by
  induction events with
  | nil => intro remote ns' svcRemote h; simp [watchServices] at h
  | cons event events ih =>
    intro remote ns' svcRemote h
    simp only [watchServices, List.mem_append] at h
    rcases h with h | h
    · obtain ⟨svc, ho, _, hns, hsvc⟩ := watchServicesStep_create ns remote event ns' svcRemote h
      exact ⟨event, List.mem_cons_self _ _, svc, ho, hns, hsvc⟩
    · obtain ⟨e, he, svc, ho, hns, hsvc⟩ := ih _ ns' svcRemote h
      exact ⟨e, List.mem_cons_of_mem _ he, svc, ho, hns, hsvc⟩

/-- No iteration of `watchServices` issues a delete or an update on the
foreign cluster, whatever the type of the event. -/
theorem watchServicesStep_no_delete (ns : String) (remote : List Service) (event : ServiceEvent)
    (c : ServiceCall) (h : c ∈ (watchServicesStep ns remote event).1) :
    (∃ name, c = .Get ns name) ∨ (∃ svc, c = .Create ns svc) := by
  unfold watchServicesStep at h
  cases ho : event.Object with
  | none => simp [ho] at h
  | some svc =>
    cases hg : remoteGet remote svc.ObjectMeta.Name with
    | some r =>
      simp [ho, hg] at h
      exact Or.inl ⟨_, h⟩
    | none =>
      simp [ho, hg] at h
      rcases h with h | h
      · exact Or.inl ⟨_, h⟩
      · exact Or.inr ⟨_, h⟩

/-- C8: every service that `watchServices` creates on the foreign cluster
comes from the home service `svc` of one of the events, is created in the
watched namespace, has the name, namespace and labels of `svc` and no
annotations (and no other metadata), and its spec has the ports, selector and
type of `svc` and every other field at its zero value. -/
theorem watchServices_created_service (ns : String) (remote : List Service)
    (events : List ServiceEvent) (ns' : String) (svcRemote : Service)
    (h : ServiceCall.Create ns' svcRemote ∈ (watchServices ns remote events).1) :
    ∃ event ∈ events, ∃ svc, event.Object = some svc ∧ ns' = ns ∧
      svcRemote.ObjectMeta.Name = svc.ObjectMeta.Name ∧
      svcRemote.ObjectMeta.Namespace = svc.ObjectMeta.Namespace ∧
      svcRemote.ObjectMeta.Labels = svc.ObjectMeta.Labels ∧
      svcRemote.ObjectMeta.Annotations = none ∧
      svcRemote.Spec.Ports = svc.Spec.Ports ∧
      svcRemote.Spec.Selector = svc.Spec.Selector ∧
      svcRemote.Spec.Type_ = svc.Spec.Type_ ∧
      svcRemote.ObjectMeta =
        { Name := svc.ObjectMeta.Name, Namespace := svc.ObjectMeta.Namespace,
          Labels := svc.ObjectMeta.Labels } ∧
      svcRemote.Spec =
        { Ports := svc.Spec.Ports, Selector := svc.Spec.Selector, Type_ := svc.Spec.Type_ } := by
  obtain ⟨event, he, svc, ho, hns, hsvc⟩ := watchServices_create ns events remote ns' svcRemote h
  subst hsvc
  exact ⟨event, he, svc, ho, hns, rfl, rfl, rfl, rfl, rfl, rfl, rfl, rfl, rfl⟩

/-- C8 at the service `web`, added while the foreign cluster has no service:
the created service has lost the annotation and the cluster IP. -/
theorem watchServices_created_service_witness :
    ServiceCall.Create "default" (translateService webService) ∈
      (watchServices "default" [] [⟨.Added, some webService⟩]).1 ∧
    webService.ObjectMeta.Annotations ≠ none ∧
    webService.Spec.ClusterIP = "10.96.0.12" ∧
    (translateService webService).ObjectMeta.Annotations = none ∧
    (translateService webService).Spec.ClusterIP = "" ∧
    ∃ event ∈ [(⟨.Added, some webService⟩ : ServiceEvent)], ∃ svc,
      event.Object = some svc ∧ "default" = "default" ∧
      (translateService webService).ObjectMeta.Name = svc.ObjectMeta.Name ∧
      (translateService webService).ObjectMeta.Namespace = svc.ObjectMeta.Namespace ∧
      (translateService webService).ObjectMeta.Labels = svc.ObjectMeta.Labels ∧
      (translateService webService).ObjectMeta.Annotations = none ∧
      (translateService webService).Spec.Ports = svc.Spec.Ports ∧
      (translateService webService).Spec.Selector = svc.Spec.Selector ∧
      (translateService webService).Spec.Type_ = svc.Spec.Type_ ∧
      (translateService webService).ObjectMeta =
        { Name := svc.ObjectMeta.Name, Namespace := svc.ObjectMeta.Namespace,
          Labels := svc.ObjectMeta.Labels } ∧
      (translateService webService).Spec =
        { Ports := svc.Spec.Ports, Selector := svc.Spec.Selector, Type_ := svc.Spec.Type_ } :=
  ⟨by decide, by decide, rfl, rfl, rfl,
    watchServices_created_service "default" [] [⟨.Added, some webService⟩] "default"
      (translateService webService) (by decide)⟩

/-- C9, at the inputs where it fails: on a `Deleted` event for the service
`web`, `watchServices` issues no delete when the foreign counterpart is
present (one `Get`, the counterpart stays), and creates the foreign service
when it is absent. -/
theorem watchServices_deleted_event :
    watchServicesStep "default" [translateService webService] ⟨.Deleted, some webService⟩ =
      ([.Get "default" "web"], [translateService webService]) ∧
    watchServicesStep "default" [] ⟨.Deleted, some webService⟩ =
      ([.Get "default" "web", .Create "default" (translateService webService)],
        [translateService webService]) := by
  constructor <;> decide

/-! ## `CreatePod`: the claims -/

/-- C10 as stated fails: `secondOwnerPod` has a `DaemonSet` owner reference
at the second position, and `CreatePod` sends the finalizer patch and creates
the foreign replica set. -/
theorem CreatePod_second_owner_daemonSet :
    (∃ refs, secondOwnerPod.ObjectMeta.OwnerReferences = some refs ∧
      ∃ ref ∈ refs, ref.Kind = "DaemonSet") ∧
    (CreatePod plainProvider () (some secondOwnerPod)).calls =
      [.PatchPod "default" "agent-x7k" .JSONPatchType
          (finalizerPatch "virtual-kubelet.liqo.io/provider"),
       .CreateReplicaSet "default"
          { ObjectMeta := { Name := "agent-x7k", Namespace := "default" }
            Spec := { Replicas := some 1 } }] := by
  constructor
  · exact ⟨_, rfl, _, List.mem_cons_of_mem _ (List.mem_cons_self _ _), rfl⟩
  · decide

/-- C10, amended: for every home pod whose first owner reference is of kind
`DaemonSet`, whatever its other owner references and fields and whatever the
provider and the state of the clusters, `CreatePod` issues no call (neither
the finalizer patch nor the replica set create), leaves the state as it is
and returns no error. -/
theorem CreatePod_first_owner_daemonSet {σ : Type} (p : LiqoProvider σ) (w : σ) (homePod : Pod)
    (ref : OwnerReference) (refs : List OwnerReference)
    (hrefs : homePod.ObjectMeta.OwnerReferences = some (ref :: refs))
    (hkind : ref.Kind = "DaemonSet") :
    (CreatePod p w (some homePod)).calls = [] ∧
    (CreatePod p w (some homePod)).err = none ∧
    (CreatePod p w (some homePod)).state = w := by
  have hskip : firstOwnerIsDaemonSet homePod = true := by
    simp [firstOwnerIsDaemonSet, hrefs, hkind]
  simp [CreatePod, hskip]

/-- C10, amended, at `daemonSetPod`. -/
theorem CreatePod_first_owner_daemonSet_witness :
    daemonSetPod.ObjectMeta.OwnerReferences =
      some [{ APIVersion := "apps/v1", Kind := "DaemonSet", Name := "agent" }] ∧
    (CreatePod plainProvider () (some daemonSetPod)).calls = [] ∧
    (CreatePod plainProvider () (some daemonSetPod)).err = none ∧
    (CreatePod plainProvider () (some daemonSetPod)).state = () :=
  ⟨rfl, CreatePod_first_owner_daemonSet plainProvider () daemonSetPod _ [] rfl rfl⟩

/-! ## `DeletePod`, `GetPod`, `GetPodStatus`: the claims -/

/-- C14: under the calling context of the dangling-pod cleanup, a pod whose
labels are absent, lack the key `ReflectedpodKey` or map it to the empty
string makes `DeletePod` return no error without any delete call and without
any read of the namespace mapper; a pod whose label has a non-empty value
makes it issue one delete, of the replica set named by the label in the
namespace of the pod, again without reading the namespace mapper. -/
theorem DeletePod_dangling {σ : Type} (c : ProviderClients σ) (w : σ) (pod : Pod) :
    ((pod.ObjectMeta.Labels = none ∨
        ∃ labels, pod.ObjectMeta.Labels = some labels ∧
          (labels.lookup c.ReflectedpodKey = none ∨
            labels.lookup c.ReflectedpodKey = some "")) →
      (DeletePod c w (some c.DeleteDanglingPods) (some pod)).err = none ∧
      (DeletePod c w (some c.DeleteDanglingPods) (some pod)).calls = [] ∧
      (DeletePod c w (some c.DeleteDanglingPods) (some pod)).lookups = [] ∧
      (DeletePod c w (some c.DeleteDanglingPods) (some pod)).state = w) ∧
    (∀ labels value, pod.ObjectMeta.Labels = some labels →
      labels.lookup c.ReflectedpodKey = some value → value ≠ "" →
      (DeletePod c w (some c.DeleteDanglingPods) (some pod)).calls =
        [.DeleteReplicaSet pod.ObjectMeta.Namespace value] ∧
      (DeletePod c w (some c.DeleteDanglingPods) (some pod)).lookups = []) := by
  constructor
  · intro h
    rcases h with h | ⟨labels, h, hl | hl⟩
    · simp [DeletePod, h]
    · simp [DeletePod, h, mapIndex, hl]
    · simp [DeletePod, h, mapIndex, hl]
  · intro labels value h hl hv
    simp only [DeletePod, h, mapIndex, hl, Option.getD_some, beq_self_eq_true, if_true]
    have hne : (value == "") = false := by simpa using hv
    simp only [hne, Bool.false_eq_true, if_false, deleteForeignReplicaSet]
    cases hd : c.DeleteReplicaSet w pod.ObjectMeta.Namespace value with
    | ok w' => simp
    | error e => by_cases hr : e.Reason = .NotFound <;> simp [hr]

/-- C14 at `unlabeledForeignPod`, which has no labels, and at `webForeignPod`,
whose label names the replica set `web-0`. -/
theorem DeletePod_dangling_witness :
    unlabeledForeignPod.ObjectMeta.Labels = none ∧
    (DeletePod cacheClients webCaches (some 1) (some unlabeledForeignPod)).calls = [] ∧
    (DeletePod cacheClients webCaches (some 1) (some webForeignPod)).calls =
      [.DeleteReplicaSet "default-home" "web-0"] ∧
    (DeletePod cacheClients webCaches (some 1) (some webForeignPod)).lookups = [] :=
  ⟨rfl,
    ((DeletePod_dangling cacheClients webCaches unlabeledForeignPod).1 (Or.inl rfl)).2.1,
    (DeletePod_dangling cacheClients webCaches webForeignPod).2
      [("virtualkubelet.liqo.io/source-pod", "web-0")] "web-0" rfl (by decide) (by decide)⟩

/-- Whatever the clients, the state, the namespace and the name, `GetPod`
returns no pod and no error, and reads nothing. -/
theorem GetPod_nil {σ : Type} (c : ProviderClients σ) (w : σ) (ns name : String) :
    GetPod c w ns name = { pod := none, err := none, lookups := [] } :=
  rfl

/-- C15, at the input where it fails: the namespace `default` is mapped and
`web-0` is on both sides of the cache, and `GetPod` returns no pod: the test
of line 143 is on the named result, which is nil, and the method returns
before any read. -/
theorem GetPod_cached_pod_not_returned :
    cacheClients.NatNamespace webCaches "default" false = .ok "default-home" ∧
    cacheClients.GetForeignApiByIndex webCaches "default-home" "web-0" = .ok webForeignPod ∧
    cacheClients.GetHomeNamespacedObject webCaches "default" "web-0" = .ok webPod ∧
    GetPod cacheClients webCaches "default" "web-0" =
      { pod := none, err := none, lookups := [] } := by
  refine ⟨?_, ?_, ?_, rfl⟩ <;> decide

/-- C16 as stated fails: in `missingForeignCaches` the namespace `default` is
mapped and the foreign pod is missing from the cache, and `GetPodStatus`
returns an error with the nil status. -/
theorem GetPodStatus_missing_foreign_pod_error :
    cacheClients.NatNamespace missingForeignCaches "default" false = .ok "default-home" ∧
    cacheClients.GetForeignApiByIndex missingForeignCaches "default-home" "web-0" =
      .error "pod not found" ∧
    GetPodStatus cacheClients missingForeignCaches "default" "web-0" =
      { status := none, err := some "error while retrieving foreign pod: pod not found"
        lookups := [.NatNamespace "default" false,
          .GetForeignApiByIndex "default-home" "web-0"] } := by
  refine ⟨?_, ?_, ?_⟩ <;> decide

/-- C16, amended: when the home namespace is unmapped `GetPodStatus` returns
a nil status and no error, without reading the cache; when the namespace is
mapped and the foreign pod is missing from the cache it returns a nil status
together with the error of the cache wrapped by `errors.Wrap`, whose text is
`error while retrieving foreign pod: ` followed by the text of the cache
error. -/
theorem GetPodStatus_cache_miss {σ : Type} (c : ProviderClients σ) (w : σ) (ns name : String) :
    (∀ e, c.NatNamespace w ns false = .error e →
      GetPodStatus c w ns name =
        { status := none, err := none, lookups := [.NatNamespace ns false] }) ∧
    (∀ foreignNamespace e, c.NatNamespace w ns false = .ok foreignNamespace →
      c.GetForeignApiByIndex w foreignNamespace name = .error e →
      GetPodStatus c w ns name =
        { status := none, err := some ("error while retrieving foreign pod: " ++ e)
          lookups := [.NatNamespace ns false,
            .GetForeignApiByIndex foreignNamespace name] }) := by
  constructor
  · intro e h
    simp [GetPodStatus, h]
  · intro foreignNamespace e h hf
    simp [GetPodStatus, h, hf]

/-- C16, amended, at `missingForeignCaches`: the namespace `other` is unmapped
(no error), the pod `web-0` of the mapped namespace `default` is missing (an
error). -/
theorem GetPodStatus_cache_miss_witness :
    cacheClients.NatNamespace missingForeignCaches "other" false =
      .error "namespace not mapped" ∧
    GetPodStatus cacheClients missingForeignCaches "other" "web-0" =
      { status := none, err := none, lookups := [.NatNamespace "other" false] } ∧
    (GetPodStatus cacheClients missingForeignCaches "default" "web-0").err =
      some ("error while retrieving foreign pod: " ++ "pod not found") :=
  ⟨by decide,
    (GetPodStatus_cache_miss cacheClients missingForeignCaches "other" "web-0").1
      "namespace not mapped" (by decide),
    congrArg GetPodStatusResult.err
      ((GetPodStatus_cache_miss cacheClients missingForeignCaches "default" "web-0").2
        "default-home" "pod not found" (by decide) (by decide))⟩

/-! ## `generateEP` applied again -/

theorem copied_ne_nil (addrs : List EndpointAddress) (h : addrs.any qualifies = true) :
    copied addrs ≠ [] := by
  obtain ⟨a, ha, hq⟩ := List.any_eq_true.mp h
  intro hnil
  have hmem : newAddress a ∈ copied addrs :=
    List.mem_map_of_mem _ (List.mem_filter.mpr ⟨ha, hq⟩)
  rw [hnil] at hmem
  simp at hmem

theorem mergeSubsets_ne (ls : List EndpointSubset) :
    ∀ rs : List EndpointSubset, ls.any contributes = true → ls.length ≤ rs.length →
      mergeSubsets ls rs ≠ rs := by
  induction ls with
  | nil => intro rs h _; simp at h
  | cons l ls ih =>
    intro rs h hlen
    cases rs with
    | nil => simp at hlen
    | cons r rs =>
      intro heq
      simp only [mergeSubsets, List.cons.injEq] at heq
      by_cases hc : contributes l = true
      · have hr := congrArg (fun s => s.Addresses.length) heq.1
        have hpos : 0 < (copied l.Addresses).length :=
          List.length_pos.mpr (copied_ne_nil _ hc)
        simp only [List.length_append] at hr
        omega
      · have hrest : ls.any contributes = true := by
          simp only [List.any_cons, Bool.or_eq_true] at h
          exact h.resolve_left hc
        exact ih rs hrest (by simpa using hlen) heq.2

/-- The second application at `oneSubset`: `generateEP` applied to its own
result `oneSubsetUpdated` appends the address of `worker-1` once more. -/
theorem generateEP_again_appends :
    generateEP oneSubset (some oneSubsetRemote) = .ok (some oneSubsetUpdated) ∧
    generateEP oneSubset (some oneSubsetUpdated) = .ok (some oneSubsetUpdatedTwice) ∧
    oneSubsetUpdatedTwice ≠ oneSubsetUpdated := by
  refine ⟨?_, ?_, ?_⟩ <;> decide

/-- C17, on the code: when the remote object `R` has a subset for every subset
of the local object `L` and `generateEP L R` is an object `out`, applying
`generateEP` with the same `L` to `out` never gives `out` back: line 153
appends again, so subset `i` of the result holds the addresses of subset `i`
of `out` followed once more by the qualifying addresses of subset `i` of `L`,
and `watchEP` sends this longer object in an update. -/
theorem generateEP_again (L R out : Endpoints) (ns : String)
    (hlen : L.Subsets.length ≤ R.Subsets.length)
    (hout : generateEP L (some R) = .ok (some out)) :
    ∃ again, generateEP L (some out) = .ok (some again) ∧ again ≠ out ∧
      again.ObjectMeta = out.ObjectMeta ∧ again.Subsets.length = out.Subsets.length ∧
      (∀ (i : Nat) (l : EndpointSubset), L.Subsets[i]? = some l →
        ∃ o o', out.Subsets[i]? = some o ∧ again.Subsets[i]? = some o' ∧
          o'.Addresses = o.Addresses ++ (l.Addresses.filter qualifies).map newAddress) ∧
      watchEPPost ns L (some out) = { calls := [.Update ns again], panic := none } := by
  have hfirst := generateEP_present L R hlen
  rw [hfirst] at hout
  have hc : L.Subsets.any contributes = true := by
    by_cases hc : L.Subsets.any contributes = true
    · exact hc
    · rw [if_neg hc] at hout; simp at hout
  rw [if_pos hc] at hout
  simp only [Except.ok.injEq, Option.some.injEq] at hout
  have hsub : out.Subsets = mergeSubsets L.Subsets R.Subsets := by rw [← hout]
  have hlen' : L.Subsets.length ≤ out.Subsets.length := by
    rw [hsub, mergeSubsets_length _ _ hlen]; exact hlen
  have hsecond := generateEP_present L out hlen'
  rw [if_pos hc] at hsecond
  refine ⟨{ out with Subsets := mergeSubsets L.Subsets out.Subsets }, hsecond, ?_, rfl,
    mergeSubsets_length _ _ hlen', ?_, ?_⟩
  · intro heq
    exact mergeSubsets_ne L.Subsets out.Subsets hc hlen' (congrArg Endpoints.Subsets heq)
  · intro i l hl
    obtain ⟨o, ho, hm⟩ := mergeSubsets_getElem? L.Subsets out.Subsets i l hlen' hl
    exact ⟨o, { o with Addresses := o.Addresses ++ copied l.Addresses }, ho, hm, rfl⟩
  · simp [watchEPPost, hsecond]

/-- C17, on the code, at `oneSubset`, `oneSubsetRemote` and
`oneSubsetUpdated`. -/
theorem generateEP_again_witness :
    oneSubset.Subsets.length ≤ oneSubsetRemote.Subsets.length ∧
    generateEP oneSubset (some oneSubsetRemote) = .ok (some oneSubsetUpdated) ∧
    ∃ again, generateEP oneSubset (some oneSubsetUpdated) = .ok (some again) ∧
      again ≠ oneSubsetUpdated ∧
      again.ObjectMeta = oneSubsetUpdated.ObjectMeta ∧
      again.Subsets.length = oneSubsetUpdated.Subsets.length ∧
      (∀ (i : Nat) (l : EndpointSubset), oneSubset.Subsets[i]? = some l →
        ∃ o o', oneSubsetUpdated.Subsets[i]? = some o ∧ again.Subsets[i]? = some o' ∧
          o'.Addresses = o.Addresses ++ (l.Addresses.filter qualifies).map newAddress) ∧
      watchEPPost "default" oneSubset (some oneSubsetUpdated) =
        { calls := [.Update "default" again], panic := none } :=
  ⟨by decide, by decide,
    generateEP_again oneSubset oneSubsetRemote oneSubsetUpdated "default"
      (by decide) (by decide)⟩

/-! ## Lemmas on the two clusters -/

theorem finalizerPatch_toList (token : String) :
    (finalizerPatch token).toList = patchHead.toList ++ (token.toList ++ patchTail.toList) := by
  simp [finalizerPatch, patchHead, patchTail, String.toList, String.data_append]

theorem decodeFinalizersAdd_finalizerPatch (token : String) :
    decodeFinalizersAdd (finalizerPatch token) = some token := by
  unfold decodeFinalizersAdd
  simp only [finalizerPatch_toList]
  have h1 : patchHead.toList.isPrefixOf (patchHead.toList ++ (token.toList ++ patchTail.toList))
      = true := by
    rw [List.isPrefixOf_iff_prefix]; exact List.prefix_append _ _
  have h2 : patchTail.toList.isSuffixOf (patchHead.toList ++ (token.toList ++ patchTail.toList))
      = true := by
    rw [List.isSuffixOf_iff_suffix, ← List.append_assoc]; exact List.suffix_append _ _
  have hl : patchHead.length = patchHead.toList.length := rfl
  have hl2 : patchTail.length = patchTail.toList.length := rfl
  simp only [h1, h2, hl, hl2, List.length_append, Bool.and_self, Bool.true_and]
  have hle : patchHead.toList.length + patchTail.toList.length ≤
      patchHead.toList.length + (token.toList.length + patchTail.toList.length) := by omega
  simp only [hle, decide_True, if_true, List.drop_left]
  have : patchHead.toList.length + (token.toList.length + patchTail.toList.length)
      - patchHead.toList.length - patchTail.toList.length = token.toList.length := by omega
  rw [this, List.take_left]
  rfl

theorem patchHomePod_finalizerPatch (w : Clusters) (ns name token : String) :
    patchHomePod w ns name .JSONPatchType (finalizerPatch token) =
      if w.homePods.any (isPod ns name) = true then
        .ok { w with homePods := patchedPods w.homePods ns name token }
      else .error .NotFound := by
  simp only [patchHomePod, decodeFinalizersAdd_finalizerPatch]

theorem isPod_patched (ns name token ns' name' : String) (pod : Pod) :
    isPod ns' name'
      (if isPod ns name pod = true then
        { pod with ObjectMeta := { pod.ObjectMeta with Finalizers := [token] } }
      else pod) = isPod ns' name' pod := by
  by_cases h : isPod ns name pod = true
  · rw [if_pos h]; rfl
  · rw [if_neg h]

theorem any_isPod_patchedPods (pods : List Pod) (ns name token ns' name' : String) :
    (patchedPods pods ns name token).any (isPod ns' name') = pods.any (isPod ns' name') := by
  induction pods with
  | nil => simp [patchedPods]
  | cons pod pods ih =>
    simp only [patchedPods, List.map_cons, List.any_cons] at ih ⊢
    rw [ih, isPod_patched]

theorem CreatePod_withClusters_none (p : LiqoProvider Unit) (w : Clusters) (homePod : Pod)
    (h : foreignReplicasetOf p homePod = none) :
    CreatePod (withClusters p) w (some homePod) = { err := none, state := w, calls := [] } := by
  unfold foreignReplicasetOf at h
  unfold CreatePod
  by_cases hd : firstOwnerIsDaemonSet homePod = true
  · simp [hd]
  · simp only [hd, Bool.false_eq_true, if_false] at h ⊢
    cases hf : p.HomeToForeign homePod with
    | error e => simp [withClusters, hf]
    | ok foreignPod =>
      simp only [hf] at h
      cases ht : p.TranslateServiceEnvVariables () foreignPod homePod.ObjectMeta.Namespace
          foreignPod.ObjectMeta.Namespace with
      | error e => simp [withClusters, hf, ht]
      | ok foreignPod' => simp [ht] at h

theorem CreatePod_withClusters_some (p : LiqoProvider Unit) (w : Clusters) (homePod : Pod)
    (rs : ReplicaSet) (h : foreignReplicasetOf p homePod = some rs) :
    CreatePod (withClusters p) w (some homePod) =
      if w.homePods.any (isPod homePod.ObjectMeta.Namespace homePod.ObjectMeta.Name) = true then
        if w.foreignReplicaSets.any
            (isReplicaSet rs.ObjectMeta.Namespace rs.ObjectMeta.Name) = true then
          { err := none
            state :=
              { w with
                homePods := patchedPods w.homePods homePod.ObjectMeta.Namespace
                  homePod.ObjectMeta.Name p.HomePodFinalizer }
            calls :=
              [.PatchPod homePod.ObjectMeta.Namespace homePod.ObjectMeta.Name .JSONPatchType
                  (finalizerPatch p.HomePodFinalizer),
               .CreateReplicaSet rs.ObjectMeta.Namespace rs] }
        else
          { err := none
            state :=
              { homePods := patchedPods w.homePods homePod.ObjectMeta.Namespace
                  homePod.ObjectMeta.Name p.HomePodFinalizer
                foreignReplicaSets := w.foreignReplicaSets ++ [rs] }
            calls :=
              [.PatchPod homePod.ObjectMeta.Namespace homePod.ObjectMeta.Name .JSONPatchType
                  (finalizerPatch p.HomePodFinalizer),
               .CreateReplicaSet rs.ObjectMeta.Namespace rs] }
      else
        { err := none, state := w
          calls :=
            [.PatchPod homePod.ObjectMeta.Namespace homePod.ObjectMeta.Name .JSONPatchType
              (finalizerPatch p.HomePodFinalizer)] } := by
  unfold foreignReplicasetOf at h
  unfold CreatePod
  by_cases hd : firstOwnerIsDaemonSet homePod = true
  · simp [hd] at h
  · simp only [hd, Bool.false_eq_true, if_false] at h ⊢
    cases hf : p.HomeToForeign homePod with
    | error e => simp [hf] at h
    | ok foreignPod =>
      simp only [hf] at h
      cases ht : p.TranslateServiceEnvVariables () foreignPod homePod.ObjectMeta.Namespace
          foreignPod.ObjectMeta.Namespace with
      | error e => simp [ht] at h
      | ok foreignPod' =>
        simp only [ht, Option.some.injEq] at h
        subst h
        simp only [withClusters, hf, ht, patchHomePod_finalizerPatch]
        by_cases hp : w.homePods.any
            (isPod homePod.ObjectMeta.Namespace homePod.ObjectMeta.Name) = true
        · simp only [hp, if_true, createForeignReplicaSet]
          by_cases hk : w.foreignReplicaSets.any
              (isReplicaSet (p.ReplicasetFromPod foreignPod').ObjectMeta.Namespace
                (p.ReplicasetFromPod foreignPod').ObjectMeta.Name) = true
          · simp [hk]
          · simp only [hk, Bool.false_eq_true, if_false]
        · simp [hp]

theorem filter_length_eq_one {α : Type} (q : α → Bool) (l : List α)
    (hany : l.any q = true) (hle : (l.filter q).length ≤ 1) : (l.filter q).length = 1 := by
  obtain ⟨a, ha, hq⟩ := List.any_eq_true.mp hany
  have hmem : a ∈ l.filter q := List.mem_filter.mpr ⟨ha, hq⟩
  have hpos : 0 < (l.filter q).length := List.length_pos_of_mem hmem
  omega

theorem filter_eq_nil_of_any_false {α : Type} (q : α → Bool) (l : List α)
    (hany : ¬ l.any q = true) : l.filter q = [] := by
  rw [List.filter_eq_nil_iff]
  intro a ha hq
  exact hany (List.any_eq_true.mpr ⟨a, ha, hq⟩)

/-! ## `CreatePod` on the two clusters: the claims -/

/-- On every input, with the foreign cluster a store of replica sets keyed by
namespace and name, the second of two invocations of `CreatePod` for the same
home pod returns no error and leaves the foreign replica sets as the first has left
them; a create that it issues is answered `AlreadyExists`; and when the first
invocation issued the create, the second issues it too and, provided the
store held at most one replica set of that key before, it holds exactly one
after the two invocations. -/
theorem CreatePod_twice (p : LiqoProvider Unit) (w : Clusters) (homePod : Pod) :
    (CreatePodTwice p w homePod).err = none ∧
    (CreatePodTwice p w homePod).state.foreignReplicaSets =
      (CreatePod (withClusters p) w (some homePod)).state.foreignReplicaSets ∧
    (∀ ns rs, ApiCall.CreateReplicaSet ns rs ∈ (CreatePodTwice p w homePod).calls →
      ∃ w', patchHomePod (CreatePod (withClusters p) w (some homePod)).state
          homePod.ObjectMeta.Namespace homePod.ObjectMeta.Name .JSONPatchType
          (finalizerPatch p.HomePodFinalizer) = .ok w' ∧
        createForeignReplicaSet w' ns rs = .error .AlreadyExists) ∧
    (∀ ns rs,
      ApiCall.CreateReplicaSet ns rs ∈ (CreatePod (withClusters p) w (some homePod)).calls →
      ApiCall.CreateReplicaSet ns rs ∈ (CreatePodTwice p w homePod).calls ∧
      ((w.foreignReplicaSets.filter (isReplicaSet ns rs.ObjectMeta.Name)).length ≤ 1 →
        ((CreatePodTwice p w homePod).state.foreignReplicaSets.filter
          (isReplicaSet ns rs.ObjectMeta.Name)).length = 1)) := by
  unfold CreatePodTwice
  cases h : foreignReplicasetOf p homePod with
  | none =>
    have hN := fun w => CreatePod_withClusters_none p w homePod h
    simp [hN]
  | some rs =>
    have hS := fun w => CreatePod_withClusters_some p w homePod rs h
    by_cases hp : w.homePods.any
        (isPod homePod.ObjectMeta.Namespace homePod.ObjectMeta.Name) = true
    · by_cases hk : w.foreignReplicaSets.any
          (isReplicaSet rs.ObjectMeta.Namespace rs.ObjectMeta.Name) = true
      · have h1 := hS w
        simp only [hp, hk, if_true] at h1
        have h2 := hS { w with
          homePods := patchedPods w.homePods homePod.ObjectMeta.Namespace
            homePod.ObjectMeta.Name p.HomePodFinalizer }
        simp only [any_isPod_patchedPods, hp, hk, if_true] at h2
        rw [h1, h2]
        refine ⟨rfl, rfl, ?_, ?_⟩
        · intro ns rs' hmem
          simp only [List.mem_cons, List.mem_singleton, ApiCall.CreateReplicaSet.injEq,
            List.not_mem_nil, or_false, false_or, reduceCtorEq] at hmem
          obtain ⟨hns, hrs⟩ := hmem
          subst hrs; subst hns
          simp only [patchHomePod_finalizerPatch, any_isPod_patchedPods, hp, if_true,
            Except.ok.injEq, exists_eq_left']
          simp [createForeignReplicaSet, hk]
        · intro ns rs' hmem
          simp only [List.mem_cons, List.mem_singleton, ApiCall.CreateReplicaSet.injEq,
            List.not_mem_nil, or_false, false_or, reduceCtorEq] at hmem
          obtain ⟨hns, hrs⟩ := hmem
          subst hrs; subst hns
          refine ⟨by simp, fun hle => ?_⟩
          exact filter_length_eq_one _ _ hk hle
      · have h1 := hS w
        simp only [hp, hk, if_true, Bool.false_eq_true, if_false] at h1
        have hk' : (w.foreignReplicaSets ++ [rs]).any
            (isReplicaSet rs.ObjectMeta.Namespace rs.ObjectMeta.Name) = true := by
          simp [isReplicaSet]
        have h2 := hS
          { homePods := patchedPods w.homePods homePod.ObjectMeta.Namespace
              homePod.ObjectMeta.Name p.HomePodFinalizer
            foreignReplicaSets := w.foreignReplicaSets ++ [rs] }
        simp only [any_isPod_patchedPods, hp, hk', if_true] at h2
        rw [h1, h2]
        refine ⟨rfl, rfl, ?_, ?_⟩
        · intro ns rs' hmem
          simp only [List.mem_cons, List.mem_singleton, ApiCall.CreateReplicaSet.injEq,
            List.not_mem_nil, or_false, false_or, reduceCtorEq] at hmem
          obtain ⟨hns, hrs⟩ := hmem
          subst hrs; subst hns
          simp only [patchHomePod_finalizerPatch, any_isPod_patchedPods, hp, if_true,
            Except.ok.injEq, exists_eq_left']
          simp only [createForeignReplicaSet, hk', if_true]
        · intro ns rs' hmem
          simp only [List.mem_cons, List.mem_singleton, ApiCall.CreateReplicaSet.injEq,
            List.not_mem_nil, or_false, false_or, reduceCtorEq] at hmem
          obtain ⟨hns, hrs⟩ := hmem
          subst hrs; subst hns
          refine ⟨by simp, fun _ => ?_⟩
          simp only [List.filter_append, filter_eq_nil_of_any_false _ _ hk, List.nil_append]
          simp [isReplicaSet]
    · have h1 := hS w
      simp only [hp, Bool.false_eq_true, if_false] at h1
      simp [h1, hp]

theorem mem_patchedPods_finalizers (pods : List Pod) (ns name token : String) (pod : Pod)
    (hmem : pod ∈ patchedPods pods ns name token) (hkey : isPod ns name pod = true) :
    pod.ObjectMeta.Finalizers = [token] := by
  obtain ⟨pod₀, _, hpod⟩ := List.mem_map.mp hmem
  by_cases h : isPod ns name pod₀ = true
  · rw [if_pos h] at hpod
    rw [← hpod]
  · rw [if_neg h] at hpod
    rw [hpod] at h
    exact absurd hkey h

theorem PatchPod_mem_calls (p : LiqoProvider Unit) (w : Clusters) (homePod : Pod)
    (ns name : String) (pt : PatchType) (data : String)
    (h : ApiCall.PatchPod ns name pt data ∈ (CreatePod (withClusters p) w (some homePod)).calls) :
    ns = homePod.ObjectMeta.Namespace ∧ name = homePod.ObjectMeta.Name ∧
      pt = .JSONPatchType ∧ data = finalizerPatch p.HomePodFinalizer := by
  cases hf : foreignReplicasetOf p homePod with
  | none =>
    rw [CreatePod_withClusters_none p w homePod hf] at h
    simp at h
  | some rs =>
    rw [CreatePod_withClusters_some p w homePod rs hf] at h
    by_cases hp : w.homePods.any
        (isPod homePod.ObjectMeta.Namespace homePod.ObjectMeta.Name) = true
    · by_cases hk : w.foreignReplicaSets.any
          (isReplicaSet rs.ObjectMeta.Namespace rs.ObjectMeta.Name) = true
      · simp only [hp, hk, if_true] at h
        simpa using h
      · simp only [hp, hk, if_true, Bool.false_eq_true, if_false] at h
        simpa using h
    · simp only [hp, Bool.false_eq_true, if_false] at h
      simpa using h

/-- C12, at the input where it fails: the patch that `CreatePod` sends for
`webPod` has the type `JSONPatchType`, not `MergePatchType`, and applying it
to `webPod`, which has the finalizer `example.com/backup`, leaves the token
as the only finalizer: the earlier finalizer is lost. -/
theorem CreatePod_patch_replaces_finalizers :
    (CreatePod (withClusters plainProvider) webClusters (some webPod)).calls.head? =
      some (.PatchPod "default" "web-0" .JSONPatchType
        (finalizerPatch "virtual-kubelet.liqo.io/provider")) ∧
    PatchType.JSONPatchType ≠ PatchType.MergePatchType ∧
    webPod.ObjectMeta.Finalizers = ["example.com/backup"] ∧
    patchHomePod webClusters "default" "web-0" .JSONPatchType
        (finalizerPatch "virtual-kubelet.liqo.io/provider") =
      .ok webClustersPatched := by
  refine ⟨?_, ?_, ?_, ?_⟩ <;> decide

/-- What the finalizer patch does keep: the patch that `CreatePod` sends is a
JSON Patch (`JSONPatchType`) for the pod of the namespace and name of the home pod, and
its bytes are one `add` operation on `/metadata/finalizers` whose value is the
list of the one token `HomePodFinalizer`. When the home API server applies
it, the finalizer list of that pod contains the token, every other field of
its metadata, its spec and its status are unchanged, and so are the other
pods and the foreign cluster. -/
theorem CreatePod_finalizer_patch (p : LiqoProvider Unit) (w w' : Clusters) (homePod : Pod)
    (ns name : String) (pt : PatchType) (data : String)
    (hsent : ApiCall.PatchPod ns name pt data ∈
      (CreatePod (withClusters p) w (some homePod)).calls)
    (hok : patchHomePod w ns name pt data = .ok w') :
    pt = .JSONPatchType ∧ data = finalizerPatch p.HomePodFinalizer ∧
    decodeFinalizersAdd data = some p.HomePodFinalizer ∧
    ns = homePod.ObjectMeta.Namespace ∧ name = homePod.ObjectMeta.Name ∧
    w'.foreignReplicaSets = w.foreignReplicaSets ∧
    w'.homePods.length = w.homePods.length ∧
    ∀ (i : Nat) (pod : Pod), w.homePods[i]? = some pod →
      ∃ pod', w'.homePods[i]? = some pod' ∧
        (isPod ns name pod = true → p.HomePodFinalizer ∈ pod'.ObjectMeta.Finalizers) ∧
        (isPod ns name pod = false → pod' = pod) ∧
        pod'.TypeMeta = pod.TypeMeta ∧ pod'.Spec = pod.Spec ∧ pod'.Status = pod.Status ∧
        pod'.ObjectMeta.Name = pod.ObjectMeta.Name ∧
        pod'.ObjectMeta.Namespace = pod.ObjectMeta.Namespace ∧
        pod'.ObjectMeta.Labels = pod.ObjectMeta.Labels ∧
        pod'.ObjectMeta.Annotations = pod.ObjectMeta.Annotations ∧
        pod'.ObjectMeta.OwnerReferences = pod.ObjectMeta.OwnerReferences := by
  obtain ⟨hns, hname, hpt, hdata⟩ := PatchPod_mem_calls p w homePod ns name pt data hsent
  subst hpt; subst hdata
  rw [patchHomePod_finalizerPatch] at hok
  by_cases hp : w.homePods.any (isPod ns name) = true
  · rw [if_pos hp] at hok
    simp only [Except.ok.injEq] at hok
    subst hok
    refine ⟨rfl, rfl, decodeFinalizersAdd_finalizerPatch _, hns, hname, rfl, ?_, ?_⟩
    · simp [patchedPods]
    · intro i pod hi
      by_cases hkey : isPod ns name pod = true
      · refine ⟨{ pod with
            ObjectMeta := { pod.ObjectMeta with Finalizers := [p.HomePodFinalizer] } }, ?_,
          fun _ => by simp, fun hfalse => ?_, rfl, rfl, rfl, rfl, rfl, rfl, rfl, rfl⟩
        · simp [patchedPods, hi, hkey]
        · rw [hkey] at hfalse; exact absurd hfalse (by decide)
      · refine ⟨pod, ?_, fun htrue => absurd htrue hkey, fun _ => rfl,
          rfl, rfl, rfl, rfl, rfl, rfl, rfl, rfl⟩
        simp [patchedPods, hi, hkey]
  · rw [if_neg hp] at hok
    simp at hok

/-- The finalizer patch at `webPod` on `webClusters`: after the patch the pod
has the token among its finalizers, and its labels and spec are those of
`webPod`. -/
theorem CreatePod_finalizer_patch_witness :
    ApiCall.PatchPod "default" "web-0" .JSONPatchType
        (finalizerPatch "virtual-kubelet.liqo.io/provider") ∈
      (CreatePod (withClusters plainProvider) webClusters (some webPod)).calls ∧
    patchHomePod webClusters "default" "web-0" .JSONPatchType
        (finalizerPatch "virtual-kubelet.liqo.io/provider") = .ok webClustersPatched ∧
    ∃ pod', webClustersPatched.homePods[0]? = some pod' ∧
      "virtual-kubelet.liqo.io/provider" ∈ pod'.ObjectMeta.Finalizers ∧
      pod'.ObjectMeta.Labels = webPod.ObjectMeta.Labels ∧ pod'.Spec = webPod.Spec := by
  have h := (CreatePod_finalizer_patch plainProvider webClusters webClustersPatched webPod
    "default" "web-0" .JSONPatchType (finalizerPatch "virtual-kubelet.liqo.io/provider")
    (by decide) (by decide)).2.2.2.2.2.2.2 0 webPod rfl
  obtain ⟨pod', h0, hmem, _, _, hspec, _, _, _, hlabels, _⟩ := h
  exact ⟨by decide, by decide, pod', h0, hmem (by decide), hlabels, hspec⟩

/-- C13: in every invocation of `CreatePod`, whatever the translation
functions and the clients, a create of a foreign replica set is issued only
when the two translations and then the finalizer patch have succeeded, and
the calls are then the patch followed by the create; on the two clusters, the
home pod of the invocation is then on the home cluster with the token among
its finalizers. -/
theorem CreatePod_create_after_patch :
    (∀ (σ : Type) (p : LiqoProvider σ) (w : σ) (homePod : Pod) (ns : String) (rs : ReplicaSet),
      ApiCall.CreateReplicaSet ns rs ∈ (CreatePod p w (some homePod)).calls →
      (∃ foreignPod foreignPod',
        p.HomeToForeign homePod = .ok foreignPod ∧
        p.TranslateServiceEnvVariables w foreignPod homePod.ObjectMeta.Namespace
          foreignPod.ObjectMeta.Namespace = .ok foreignPod' ∧
        rs = p.ReplicasetFromPod foreignPod' ∧ ns = rs.ObjectMeta.Namespace) ∧
      (∃ w', p.PatchPod w homePod.ObjectMeta.Namespace homePod.ObjectMeta.Name
        .JSONPatchType (finalizerPatch p.HomePodFinalizer) = .ok w') ∧
      (CreatePod p w (some homePod)).calls =
        [.PatchPod homePod.ObjectMeta.Namespace homePod.ObjectMeta.Name .JSONPatchType
            (finalizerPatch p.HomePodFinalizer),
         .CreateReplicaSet ns rs]) ∧
    (∀ (p : LiqoProvider Unit) (w : Clusters) (homePod : Pod) (ns : String) (rs : ReplicaSet),
      ApiCall.CreateReplicaSet ns rs ∈ (CreatePod (withClusters p) w (some homePod)).calls →
      (∃ pod ∈ (CreatePod (withClusters p) w (some homePod)).state.homePods,
        isPod homePod.ObjectMeta.Namespace homePod.ObjectMeta.Name pod = true) ∧
      ∀ pod ∈ (CreatePod (withClusters p) w (some homePod)).state.homePods,
        isPod homePod.ObjectMeta.Namespace homePod.ObjectMeta.Name pod = true →
        p.HomePodFinalizer ∈ pod.ObjectMeta.Finalizers) := by
  constructor
  · intro σ p w homePod ns rs h
    unfold CreatePod at h ⊢
    by_cases hd : firstOwnerIsDaemonSet homePod = true
    · simp [hd] at h
    · simp only [hd, Bool.false_eq_true, if_false] at h ⊢
      cases hf : p.HomeToForeign homePod with
      | error e => simp [hf] at h
      | ok foreignPod =>
        simp only [hf] at h ⊢
        cases ht : p.TranslateServiceEnvVariables w foreignPod homePod.ObjectMeta.Namespace
            foreignPod.ObjectMeta.Namespace with
        | error e => simp [ht] at h
        | ok foreignPod' =>
          simp only [ht] at h ⊢
          cases hpatch : p.PatchPod w homePod.ObjectMeta.Namespace homePod.ObjectMeta.Name
              .JSONPatchType (finalizerPatch p.HomePodFinalizer) with
          | error e => simp [hpatch] at h
          | ok w' =>
            simp only [hpatch] at h ⊢
            cases hc : p.CreateReplicaSet w' (p.ReplicasetFromPod foreignPod').ObjectMeta.Namespace
                (p.ReplicasetFromPod foreignPod') with
            | error e =>
              simp only [hc, List.mem_cons, List.mem_singleton, ApiCall.CreateReplicaSet.injEq,
                List.not_mem_nil, or_false, false_or, reduceCtorEq] at h
              obtain ⟨hns, hrs⟩ := h
              subst hrs; subst hns
              exact ⟨⟨foreignPod, foreignPod', rfl, ht, rfl, rfl⟩, ⟨w', rfl⟩, by simp [hc]⟩
            | ok w'' =>
              simp only [hc, List.mem_cons, List.mem_singleton, ApiCall.CreateReplicaSet.injEq,
                List.not_mem_nil, or_false, false_or, reduceCtorEq] at h
              obtain ⟨hns, hrs⟩ := h
              subst hrs; subst hns
              exact ⟨⟨foreignPod, foreignPod', rfl, ht, rfl, rfl⟩, ⟨w', rfl⟩, by simp [hc]⟩
  · intro p w homePod ns rs h
    cases hf : foreignReplicasetOf p homePod with
    | none =>
      rw [CreatePod_withClusters_none p w homePod hf] at h
      simp at h
    | some rs' =>
      rw [CreatePod_withClusters_some p w homePod rs' hf] at h ⊢
      by_cases hp : w.homePods.any
          (isPod homePod.ObjectMeta.Namespace homePod.ObjectMeta.Name) = true
      · have hany := any_isPod_patchedPods w.homePods homePod.ObjectMeta.Namespace
          homePod.ObjectMeta.Name p.HomePodFinalizer homePod.ObjectMeta.Namespace
          homePod.ObjectMeta.Name
        rw [hp] at hany
        obtain ⟨pod, hmem, hkey⟩ := List.any_eq_true.mp hany
        have hall : ∀ pod ∈ patchedPods w.homePods homePod.ObjectMeta.Namespace
            homePod.ObjectMeta.Name p.HomePodFinalizer,
            isPod homePod.ObjectMeta.Namespace homePod.ObjectMeta.Name pod = true →
            p.HomePodFinalizer ∈ pod.ObjectMeta.Finalizers := by
          intro pod' hmem' hkey'
          rw [mem_patchedPods_finalizers _ _ _ _ _ hmem' hkey']
          simp
        by_cases hk : w.foreignReplicaSets.any
            (isReplicaSet rs'.ObjectMeta.Namespace rs'.ObjectMeta.Name) = true
        · simp only [hp, hk, if_true]
          exact ⟨⟨pod, hmem, hkey⟩, hall⟩
        · simp only [hp, hk, if_true, Bool.false_eq_true, if_false]
          exact ⟨⟨pod, hmem, hkey⟩, hall⟩
      · simp only [hp, Bool.false_eq_true, if_false] at h
        simp at h

/-- C13 at `webPod` on `webClusters`: the create of `webReplicaSet` comes
after the patch, and the pod then carries the token. -/
theorem CreatePod_create_after_patch_witness :
    ApiCall.CreateReplicaSet "default" webReplicaSet ∈
      (CreatePod (withClusters plainProvider) webClusters (some webPod)).calls ∧
    (CreatePod (withClusters plainProvider) webClusters (some webPod)).calls =
      [.PatchPod webPod.ObjectMeta.Namespace webPod.ObjectMeta.Name .JSONPatchType
          (finalizerPatch (withClusters plainProvider).HomePodFinalizer),
       .CreateReplicaSet "default" webReplicaSet] ∧
    ∃ pod ∈ (CreatePod (withClusters plainProvider) webClusters (some webPod)).state.homePods,
      isPod webPod.ObjectMeta.Namespace webPod.ObjectMeta.Name pod = true :=
  ⟨by decide,
    (CreatePod_create_after_patch.1 Clusters (withClusters plainProvider) webClusters webPod
      "default" webReplicaSet (by decide)).2.2,
    (CreatePod_create_after_patch.2 plainProvider webClusters webPod
      "default" webReplicaSet (by decide)).1⟩

/-- C11: take a home pod that is on the home cluster, is not skipped at line
36 and is translated to the replica set `rs`, and a foreign cluster (a store
of replica sets keyed by namespace and name) that holds at most one replica
set of the key of `rs`. The first invocation of `CreatePod` sends the patch
and the create of `rs`, and stores `rs` when the key was free; the second
invocation sends the same two calls, its create is answered `AlreadyExists`,
it returns no error and leaves the foreign replica sets as they were; after
the two invocations the store holds exactly one replica set of that key. -/
theorem CreatePod_twice_one_replicaset (p : LiqoProvider Unit) (w : Clusters)
    (homePod foreignPod foreignPod' : Pod) (rs : ReplicaSet)
    (hskip : firstOwnerIsDaemonSet homePod = false)
    (hforge : p.HomeToForeign homePod = .ok foreignPod)
    (henv : p.TranslateServiceEnvVariables () foreignPod homePod.ObjectMeta.Namespace
      foreignPod.ObjectMeta.Namespace = .ok foreignPod')
    (hrs : p.ReplicasetFromPod foreignPod' = rs)
    (hhome : w.homePods.any
      (isPod homePod.ObjectMeta.Namespace homePod.ObjectMeta.Name) = true)
    (hle : (w.foreignReplicaSets.filter
      (isReplicaSet rs.ObjectMeta.Namespace rs.ObjectMeta.Name)).length ≤ 1) :
    (CreatePod (withClusters p) w (some homePod)).calls =
      [.PatchPod homePod.ObjectMeta.Namespace homePod.ObjectMeta.Name .JSONPatchType
          (finalizerPatch p.HomePodFinalizer),
       .CreateReplicaSet rs.ObjectMeta.Namespace rs] ∧
    (CreatePod (withClusters p) w (some homePod)).err = none ∧
    (w.foreignReplicaSets.any
        (isReplicaSet rs.ObjectMeta.Namespace rs.ObjectMeta.Name) = false →
      (CreatePod (withClusters p) w (some homePod)).state.foreignReplicaSets =
        w.foreignReplicaSets ++ [rs]) ∧
    (CreatePodTwice p w homePod).calls =
      [.PatchPod homePod.ObjectMeta.Namespace homePod.ObjectMeta.Name .JSONPatchType
          (finalizerPatch p.HomePodFinalizer),
       .CreateReplicaSet rs.ObjectMeta.Namespace rs] ∧
    (CreatePodTwice p w homePod).err = none ∧
    (∃ w', patchHomePod (CreatePod (withClusters p) w (some homePod)).state
        homePod.ObjectMeta.Namespace homePod.ObjectMeta.Name .JSONPatchType
        (finalizerPatch p.HomePodFinalizer) = .ok w' ∧
      createForeignReplicaSet w' rs.ObjectMeta.Namespace rs = .error .AlreadyExists) ∧
    (CreatePodTwice p w homePod).state.foreignReplicaSets =
      (CreatePod (withClusters p) w (some homePod)).state.foreignReplicaSets ∧
    ((CreatePodTwice p w homePod).state.foreignReplicaSets.filter
      (isReplicaSet rs.ObjectMeta.Namespace rs.ObjectMeta.Name)).length = 1 := by
  have hf : foreignReplicasetOf p homePod = some rs := by
    simp [foreignReplicasetOf, hskip, hforge, henv, hrs]
  have hS := fun w => CreatePod_withClusters_some p w homePod rs hf
  unfold CreatePodTwice
  by_cases hk : w.foreignReplicaSets.any
      (isReplicaSet rs.ObjectMeta.Namespace rs.ObjectMeta.Name) = true
  · have h1 := hS w
    simp only [hhome, hk, if_true] at h1
    have h2 := hS { w with
      homePods := patchedPods w.homePods homePod.ObjectMeta.Namespace
        homePod.ObjectMeta.Name p.HomePodFinalizer }
    simp only [any_isPod_patchedPods, hhome, hk, if_true] at h2
    rw [h1, h2]
    refine ⟨rfl, rfl, ?_, rfl, rfl, ?_, rfl, filter_length_eq_one _ _ hk hle⟩
    · intro hfree
      rw [hk] at hfree
      exact absurd hfree (by decide)
    · simp only [patchHomePod_finalizerPatch, any_isPod_patchedPods, hhome, if_true,
        Except.ok.injEq, exists_eq_left']
      simp [createForeignReplicaSet, hk]
  · have h1 := hS w
    simp only [hhome, hk, if_true, Bool.false_eq_true, if_false] at h1
    have hk' : (w.foreignReplicaSets ++ [rs]).any
        (isReplicaSet rs.ObjectMeta.Namespace rs.ObjectMeta.Name) = true := by
      simp [isReplicaSet]
    have h2 := hS
      { homePods := patchedPods w.homePods homePod.ObjectMeta.Namespace
          homePod.ObjectMeta.Name p.HomePodFinalizer
        foreignReplicaSets := w.foreignReplicaSets ++ [rs] }
    simp only [any_isPod_patchedPods, hhome, hk', if_true] at h2
    rw [h1, h2]
    refine ⟨rfl, rfl, fun _ => rfl, rfl, rfl, ?_, rfl, ?_⟩
    · simp only [patchHomePod_finalizerPatch, any_isPod_patchedPods, hhome, if_true,
        Except.ok.injEq, exists_eq_left']
      simp only [createForeignReplicaSet, hk', if_true]
    · simp only [List.filter_append, filter_eq_nil_of_any_false _ _ hk, List.nil_append]
      simp [isReplicaSet]

/-- C11 at `webPod` on `webClusters`, where the foreign cluster is empty: the
first invocation stores `webReplicaSet`, the second is answered
`AlreadyExists`, and the store holds `webReplicaSet` once. -/
theorem CreatePod_twice_one_replicaset_witness :
    firstOwnerIsDaemonSet webPod = false ∧
    plainProvider.HomeToForeign webPod = .ok webPod ∧
    plainProvider.TranslateServiceEnvVariables () webPod "default" "default" = .ok webPod ∧
    plainProvider.ReplicasetFromPod webPod = webReplicaSet ∧
    webClusters.homePods.any (isPod "default" "web-0") = true ∧
    (CreatePod (withClusters plainProvider) webClusters (some webPod)).state.foreignReplicaSets =
      [webReplicaSet] ∧
    (CreatePodTwice plainProvider webClusters webPod).state.foreignReplicaSets =
      [webReplicaSet] ∧
    (CreatePodTwice plainProvider webClusters webPod).err = none ∧
    (CreatePodTwice plainProvider webClusters webPod).calls =
      [.PatchPod "default" "web-0" .JSONPatchType
          (finalizerPatch "virtual-kubelet.liqo.io/provider"),
       .CreateReplicaSet "default" webReplicaSet] ∧
    ((CreatePodTwice plainProvider webClusters webPod).state.foreignReplicaSets.filter
      (isReplicaSet "default" "web-0")).length = 1 :=
  ⟨by decide, rfl, rfl, by decide, by decide, by decide, by decide,
    (CreatePod_twice_one_replicaset plainProvider webClusters webPod webPod webPod
      webReplicaSet (by decide) rfl rfl (by decide) (by decide) (by decide)).2.2.2.2.1,
    (CreatePod_twice_one_replicaset plainProvider webClusters webPod webPod webPod
      webReplicaSet (by decide) rfl rfl (by decide) (by decide) (by decide)).2.2.2.1,
    (CreatePod_twice_one_replicaset plainProvider webClusters webPod webPod webPod
      webReplicaSet (by decide) rfl rfl (by decide) (by decide) (by decide)).2.2.2.2.2.2.2⟩

end Liqo
